import Mathlib

/-!
Shallow embedding of `src/scripts/bwsm_secret.py` (a Bitwarden Secrets Manager
CLI) and proofs about its configuration resolution, identifier disambiguation,
error-to-exit-code mapping, duplicate guard, update merge, confirmation
prompts, JSON formatting and UUID validation.

Modelling conventions:
* Python strings are Lean `String`s; character-level operations go through
  `String.toList` so that everything reduces by `decide`/`rfl`.
* `None` is `Option.none`; Python truthiness of an optional string is
  `truthy` below (`None` and `""` are falsy).
* The Bitwarden SDK client is opaque in the source, so each SDK entry point
  (login/list/get/create/update/delete) is a function parameter producing a
  `Response`; response objects carry `success`, `error_message` and `data`
  exactly as the script reads them via `getattr`.
* A raised `RuntimeError msg` is `Except.error msg`; exception-free completion
  with result `v` is `Except.ok v`.
-/

deriving instance DecidableEq for Except

namespace Bwsm

/-- Python truthiness of an optional string: `None` and the empty string are
falsy, every other string is truthy. -/
def truthy : Option String → Bool
  | none => false
  | some s => !s.toList.isEmpty

/-- Python `a or b` on optional strings: the first operand if truthy,
otherwise the second operand. -/
def pyOr (a b : Option String) : Option String :=
  if truthy a then a else b

/-- Python `s.startswith(pre)`. -/
def startswith (s pre : String) : Bool := pre.toList.isPrefixOf s.toList

/-- Substring test on character lists (worker for `pyContains`). -/
def isSubList (sub : List Char) : List Char → Bool
  | [] => sub.isEmpty
  | c :: rest => sub.isPrefixOf (c :: rest) || isSubList sub rest

/-- Python `sub in s` (substring containment). -/
def pyContains (s sub : String) : Bool := isSubList sub.toList s.toList

/-- Python whitespace characters stripped by `str.strip()` (ASCII subset). -/
def isSpaceChar (c : Char) : Bool :=
  c == ' ' || c == '\t' || c == '\n' || c == '\r' || c == '\x0b' || c == '\x0c'

/-- Python `s.strip()` on a character list. -/
def stripChars (s : List Char) : List Char :=
  ((s.dropWhile isSpaceChar).reverse.dropWhile isSpaceChar).reverse

/-- Python `s.strip()`. -/
def pyStrip (s : String) : String := ⟨stripChars s.toList⟩

/-- Python `s.lower()` (ASCII). -/
def pyLower (s : String) : String := ⟨s.toList.map Char.toLower⟩

/-- Python `s.split(",")` on a character list: split at every comma. -/
def splitComma : List Char → List (List Char)
  | [] => [[]]
  | c :: rest =>
    match splitComma rest with
    | [] => [[]]
    | g :: gs => if c == ',' then [] :: g :: gs else (c :: g) :: gs

/-- Python `s[n:]` (drop the first `n` code points). -/
def strDrop (s : String) (n : Nat) : String := ⟨s.toList.drop n⟩

/-- Fuel-driven worker for `pyReplace`; with fuel at least the length of the
input it performs Python's left-to-right non-overlapping replacement. -/
def pyReplaceAux (pat rep : List Char) : Nat → List Char → List Char
  | 0, s => s
  | _ + 1, [] => []
  | fuel + 1, c :: rest =>
    if pat.isPrefixOf (c :: rest) then
      rep ++ pyReplaceAux pat rep fuel ((c :: rest).drop pat.length)
    else
      c :: pyReplaceAux pat rep fuel rest

/-- Python `s.replace(pat, rep)` for a non-empty pattern. -/
def pyReplace (s pat rep : String) : String :=
  ⟨pyReplaceAux pat.toList rep.toList (s.toList.length + 1) s.toList⟩

/-- Python `sep.join(parts)`. -/
def joinSep (sep : String) : List String → String
  | [] => ""
  | [x] => x
  | x :: xs => x ++ sep ++ joinSep sep xs

/-- Hexadecimal digit in either case, as accepted by the `is_uuid` regex
(`[0-9a-f]` under `re.IGNORECASE`). -/
def hexCI (c : Char) : Bool :=
  ('0' ≤ c && c ≤ '9') || ('a' ≤ c && c ≤ 'f') || ('A' ≤ c && c ≤ 'F')

/-- Consume exactly `n` hex digits from the front of the list. -/
def matchHex : Nat → List Char → Option (List Char)
  | 0, cs => some cs
  | _ + 1, [] => none
  | n + 1, c :: cs => if hexCI c then matchHex n cs else none

/-- Consume one hyphen from the front of the list. -/
def matchDash : List Char → Option (List Char)
  | [] => none
  | c :: cs => if c == '-' then some cs else none

/-- Run the body of the regex
`[0-9a-f]\x7b8\x7d-[0-9a-f]\x7b4\x7d-[0-9a-f]\x7b4\x7d-[0-9a-f]\x7b4\x7d-[0-9a-f]\x7b12\x7d`
(case-insensitive) from the start of the list, returning the remainder. -/
def uuidMatch (cs : List Char) : Option (List Char) :=
  (matchHex 8 cs).bind fun r =>
    (matchDash r).bind fun r =>
      (matchHex 4 r).bind fun r =>
        (matchDash r).bind fun r =>
          (matchHex 4 r).bind fun r =>
            (matchDash r).bind fun r =>
              (matchHex 4 r).bind fun r =>
                (matchDash r).bind fun r =>
                  matchHex 12 r

/-- Embedding of `is_uuid` (restricted to string inputs): `re.match` anchored
at the start, with the pattern's final `$` which in Python matches at the end
of the string or just before a single trailing newline. -/
def is_uuid (s : String) : Bool :=
  match uuidMatch s.toList with
  | some rest => rest.isEmpty || rest == ['\n']
  | none => false

/-- Normalisation performed by `uuid.UUID(hex)` before parsing: drop `urn:`
and `uuid:` markers, strip surrounding braces, drop hyphens. -/
def uuidStripped (s : String) : List Char :=
  (((pyReplace (pyReplace s "urn:" "") "uuid:" "").toList.dropWhile
      (fun c => c == '\x7b' || c == '\x7d')).reverse.dropWhile
      (fun c => c == '\x7b' || c == '\x7d')).reverse.filter (fun c => !(c == '-'))

/-- Whether `uuid.UUID(s)` succeeds: 32 hex digits after normalisation.
(Exotic `int(_, 16)` literal forms such as a leading `0x` are not modelled;
no call site feeds them.) -/
def uuidParses (s : String) : Bool :=
  (uuidStripped s).length == 32 && (uuidStripped s).all hexCI

/-- Python `str(uuid.UUID(s))`: canonical lowercase hyphenated form. -/
def uuidCanon (s : String) : String :=
  let h := (uuidStripped s).map Char.toLower
  ⟨h.take 8⟩ ++ "-" ++ ⟨(h.drop 8).take 4⟩ ++ "-" ++ ⟨(h.drop 12).take 4⟩ ++
    "-" ++ ⟨(h.drop 16).take 4⟩ ++ "-" ++ ⟨h.drop 20⟩

/-- Decidable criterion under which appending a suffix cannot change a
`startswith` test. -/
def swStable (base pre : String) : Bool :=
  decide (pre.toList.length ≤ base.toList.length) ||
    !((pre.toList.take base.toList.length).isPrefixOf base.toList)

/-! ### Data model: SDK responses and process inputs -/

/-- An SDK response object as the script reads it: `getattr(r, "success",
False)`, `getattr(r, "error_message", ...)` and `getattr(r, "data", None)`. -/
structure Response (α : Type) where
  success : Bool
  error_message : String
  data : Option α
  deriving DecidableEq

/-- One element of the `secrets().list()` payload: the script reads only the
`key` and `id` attributes (either may be absent). -/
structure SecretEntry where
  key : Option String
  id : Option String
  deriving DecidableEq

/-- The `data` object of a `secrets().list()` response; its own `data`
attribute holds the entry list (possibly absent / `None`). -/
structure SecretsList where
  data : Option (List SecretEntry)
  deriving DecidableEq

/-- The `data` object of a `secrets().get()` / `create()` / `update()`
response; UUID-valued attributes are modelled as their `str()` images. -/
structure SecretData where
  id : Option String
  key : Option String
  value : Option String
  note : Option String
  project_id : Option String
  organization_id : Option String
  deriving DecidableEq

/-- `client.auth().login_access_token(access_token=...)`. -/
abbrev LoginFn := String → Response Unit

/-- `client.secrets().list(organization_id=...)`. -/
abbrev ListFn := String → Response SecretsList

/-- `client.secrets().get(id=...)`. -/
abbrev GetFn := String → Response SecretData

/-- `client.secrets().create(organization_id, key, value, note, project_ids)`. -/
abbrev CreateFn := String → String → String → Option String → List String → Response SecretData

/-- `client.secrets().update(organization_id, id, key, value, note, project_ids)`;
key/value/note are passed exactly as merged (possibly `None`). -/
abbrev UpdateFn := String → String → Option String → Option String → Option String → List String → Response SecretData

/-- `client.secrets().delete(ids=...)`. -/
abbrev DeleteFn := List String → Response Unit

/-- Relevant environment variables (`os.getenv` yields `None` when unset). -/
structure Env where
  access_token : Option String := none
  secret_id : Option String := none
  secret_name : Option String := none
  org_id : Option String := none

/-- Standard input: `sys.stdin.isatty()`, the piped content read by
`sys.stdin.read()`, and the `input()` line at a confirmation prompt
(`none` models `EOFError`/`KeyboardInterrupt`). -/
structure StdinData where
  isatty : Bool
  content : String := ""
  input : Option String := none

/-! ### Config resolvers -/

/-- Parsed flags of the `get` subcommand. -/
structure GetArgs where
  secret_id : Option String := none
  secret_name : Option String := none
  access_token : Option String := none
  org_id : Option String := none
  json : Bool := false
  debug : Bool := false

/-- Result tuple of `resolve_config`. -/
structure ResolvedGet where
  access_token : Option String
  secret_identifier : Option String
  org_id : Option String
  identifier_type : Option String
  source : String
  deriving DecidableEq

/-- The trailing environment-only fallback of `resolve_config`
(source lines 112-125). -/
def envFallback (env : Env) : ResolvedGet :=
  if truthy env.access_token then
    if truthy env.secret_id then
      ⟨env.access_token, env.secret_id, env.org_id, some "id", "env"⟩
    else if truthy env.secret_name then
      ⟨env.access_token, env.secret_name, env.org_id, some "name", "env"⟩
    else ⟨none, none, none, none, "missing"⟩
  else ⟨none, none, none, none, "missing"⟩

/-- The initial identifier/type pair of `resolve_config`
(source lines 81-90). -/
def cliIdPair (args : GetArgs) : Option String × Option String :=
  if truthy args.secret_id then (args.secret_id, some "id")
  else if truthy args.secret_name then (args.secret_name, some "name")
  else (none, none)

/-- The environment refill of the identifier pair (source lines 100-107);
unreachable with a truthy identifier but kept for structural fidelity. -/
def envIdPair (env : Env) (p : Option String × Option String) :
    Option String × Option String :=
  if !truthy p.1 then
    if truthy env.secret_id then (env.secret_id, some "id")
    else if truthy env.secret_name then (env.secret_name, some "name")
    else p
  else p

/-- Embedding of `resolve_config` (get subcommand, source lines 76-125). -/
def resolve_config (args : GetArgs) (env : Env) : ResolvedGet :=
  let idPair := cliIdPair args
  if args.access_token.isSome && truthy idPair.1 then
    if truthy args.access_token && truthy idPair.1 then
      ⟨args.access_token, idPair.1, pyOr args.org_id env.org_id, idPair.2, "cli"⟩
    else
      let access_token := if truthy args.access_token then args.access_token else env.access_token
      let idPair2 := envIdPair env idPair
      if truthy access_token && truthy idPair2.1 then
        ⟨access_token, idPair2.1, pyOr args.org_id env.org_id, idPair2.2, "cli"⟩
      else envFallback env
  else envFallback env

/-- Shared CLI/env merge used by the create/update/delete/list resolvers:
`args.x if args.x else getenv(...)` when the flag is present, else the
environment variable. -/
def resolveField (cli envv : Option String) : Option String :=
  if cli.isSome then (if truthy cli then cli else envv) else envv

/-- Parsed flags of the `create` subcommand. -/
structure CreateArgs where
  key : Option String := none
  value : Option String := none
  org_id : Option String := none
  note : Option String := none
  project_ids : Option String := none
  access_token : Option String := none
  json : Bool := false
  allow_duplicate : Bool := false
  debug : Bool := false

/-- Result tuple of `resolve_create_config`. -/
structure ResolvedCreate where
  access_token : Option String
  org_id : Option String
  key : Option String
  value : Option String
  note : Option String
  project_ids : Option String
  source : String

/-- Embedding of `resolve_create_config` (source lines 149-193). -/
def resolve_create_config (a : CreateArgs) (env : Env) : ResolvedCreate where
  access_token := resolveField a.access_token env.access_token
  org_id := resolveField a.org_id env.org_id
  key := if truthy a.key then a.key else none
  value := if truthy a.value then a.value else none
  note := if truthy a.note then a.note else none
  project_ids := if truthy a.project_ids then a.project_ids else none
  source := if truthy a.access_token || truthy a.org_id || truthy a.key then "cli" else "env"

/-- Parsed flags of the `update` subcommand. -/
structure UpdateArgs where
  secret_id : Option String := none
  secret_name : Option String := none
  key : Option String := none
  value : Option String := none
  note : Option String := none
  project_ids : Option String := none
  access_token : Option String := none
  org_id : Option String := none
  json : Bool := false
  force : Bool := false
  debug : Bool := false

/-- Result tuple of `resolve_update_config`. -/
structure ResolvedUpdate where
  access_token : Option String
  secret_id : Option String
  secret_name : Option String
  org_id : Option String
  key : Option String
  value : Option String
  note : Option String
  project_ids : Option String
  source : String

/-- Embedding of `resolve_update_config` (source lines 196-240). -/
def resolve_update_config (a : UpdateArgs) (env : Env) : ResolvedUpdate where
  access_token := resolveField a.access_token env.access_token
  org_id := resolveField a.org_id env.org_id
  secret_id := if truthy a.secret_id then a.secret_id else none
  secret_name := if truthy a.secret_name then a.secret_name else none
  key := if truthy a.key then a.key else none
  value := if truthy a.value then a.value else none
  note := if truthy a.note then a.note else none
  project_ids := if truthy a.project_ids then a.project_ids else none
  source :=
    if truthy a.access_token || truthy a.org_id || truthy a.secret_id ||
        truthy a.secret_name || truthy a.key || truthy a.value || truthy a.note ||
        truthy a.project_ids then "cli" else "env"

/-- Parsed flags of the `delete` subcommand; `--secret-id` is repeatable
(`action="append"`), with `None` modelled as the empty list. -/
structure DeleteArgs where
  secret_id : List String := []
  secret_name : Option String := none
  access_token : Option String := none
  org_id : Option String := none
  force : Bool := false
  json : Bool := false
  debug : Bool := false

/-- Result tuple of `resolve_delete_config`. -/
structure ResolvedDelete where
  access_token : Option String
  secret_ids : List String
  secret_name : Option String
  org_id : Option String
  source : String

/-- The comma-splitting/stripping loop of `resolve_delete_config`
(source lines 274-281). -/
def parse_delete_ids (sids : List String) : List String :=
  (sids.map fun sid =>
    (splitComma sid.toList).filterMap fun g =>
      let s := stripChars g
      if s.isEmpty then none else some (⟨s⟩ : String)).flatten

/-- Embedding of `resolve_delete_config` (source lines 243-289). -/
def resolve_delete_config (a : DeleteArgs) (env : Env) : ResolvedDelete where
  access_token := resolveField a.access_token env.access_token
  org_id := resolveField a.org_id env.org_id
  secret_ids := parse_delete_ids a.secret_id
  secret_name := if truthy a.secret_name then a.secret_name else none
  source :=
    if truthy a.access_token || truthy a.org_id || !a.secret_id.isEmpty ||
        truthy a.secret_name then "cli" else "env"

/-- Parsed flags of the `list` subcommand. -/
structure ListArgs where
  access_token : Option String := none
  org_id : Option String := none
  project_id : Option String := none
  key_pattern : Option String := none
  json : Bool := false
  debug : Bool := false

/-- Result tuple of `resolve_list_config`. -/
structure ResolvedList where
  access_token : Option String
  org_id : Option String
  project_id : Option String
  key_pattern : Option String
  source : String

/-- Embedding of `resolve_list_config` (source lines 292-327). -/
def resolve_list_config (a : ListArgs) (env : Env) : ResolvedList where
  access_token := resolveField a.access_token env.access_token
  org_id := resolveField a.org_id env.org_id
  project_id := a.project_id
  key_pattern := a.key_pattern
  source :=
    if truthy a.access_token || truthy a.org_id || truthy a.project_id ||
        truthy a.key_pattern then "cli" else "env"

/-! ### SDK-facing operations -/

/-- Embedding of `read_value_from_stdin` (source lines 128-146). -/
def read_value_from_stdin (stdin : StdinData) : Except String String :=
  if stdin.isatty then
    .error "VALUE_REQUIRED: Secret value is required. Provide via --value or pipe to stdin."
  else
    let value := pyStrip stdin.content
    if value.toList.isEmpty then
      .error "VALUE_REQUIRED: Secret value is required. Provide via --value or pipe to stdin."
    else .ok value

/-- The key-matching loop shared by `find_secret_by_name` and
`check_duplicate_secret`: ids of listed entries whose `key` equals the
searched name and whose `id` is truthy, in listing order. -/
def matchingIds : List SecretEntry → String → List String
  | [], _ => []
  | s :: rest, secret_name =>
    if s.key == some secret_name && truthy s.id then
      s.id.getD "" :: matchingIds rest secret_name
    else matchingIds rest secret_name

/-- The per-candidate detail lines built for a `MULTIPLE_SECRETS` error
(source lines 386-396): one `get` per candidate; candidates whose fetch does
not yield data are silently skipped. -/
def multi_detail_lines (get : GetFn) (ids : List String) : List String :=
  ids.filterMap fun sid =>
    let r := get sid
    if r.success then
      match r.data with
      | some d =>
        some ("  - Secret ID: " ++ sid ++ ", Project ID: " ++
          (if truthy d.project_id then d.project_id.getD "unknown" else "unknown"))
      | none => none
    else none

/-- Embedding of `find_secret_by_name` (source lines 330-401). -/
def find_secret_by_name (list : ListFn) (get : GetFn) (secret_name : String)
    (org_id : Option String) : Except String String :=
  if !truthy org_id then
    .error "ORG_ID_REQUIRED: Organization ID is required when searching by name"
  else
    let lr := list (org_id.getD "")
    if !lr.success then .error ("LIST_ERROR: " ++ lr.error_message)
    else
      match lr.data with
      | none => .error "LIST_ERROR: No data returned from secrets list"
      | some dat =>
        let secrets := dat.data.getD []
        let matching := matchingIds secrets secret_name
        match matching with
        | [] =>
          .error ("NOT_FOUND: Secret with name/key \x27" ++ (secret_name ++ "\x27 not found"))
        | [x] => .ok x
        | _ =>
          .error ("MULTIPLE_SECRETS: Found " ++ (toString matching.length ++
            (" secrets with name/key \x27" ++ (secret_name ++ ("\x27:\n" ++
            (joinSep "\n" (multi_detail_lines get matching) ++
            "\n\nTo disambiguate, use --secret-id <uuid> with one of the secret IDs above."))))))

/-- The per-match project inspection loop of `check_duplicate_secret`
(source lines 452-508): fetch each matching secret, skip candidates without
data or without a `project_id` attribute, and return the first whose project
id lies in the target set.  (The SDK returns a single `project_id`; the
legacy alternative attribute names probed at lines 470-475 are not modelled.) -/
def dup_scan (get : GetFn) (project_id_strs : List String) : List String → Option String
  | [] => none
  | sid :: rest =>
    if !(get sid).success then dup_scan get project_id_strs rest
    else if ((get sid).data).isNone then dup_scan get project_id_strs rest
    else if (((get sid).data.getD ⟨none, none, none, none, none, none⟩).project_id).isNone then
      dup_scan get project_id_strs rest
    else if project_id_strs.contains
        (((get sid).data.getD ⟨none, none, none, none, none, none⟩).project_id.getD "") then
      some sid
    else dup_scan get project_id_strs rest

/-- Embedding of `check_duplicate_secret` (source lines 404-512); the
`project_ids` argument carries `str()` images of the target project UUIDs. -/
def check_duplicate_secret (list : ListFn) (get : GetFn) (secret_key : String)
    (org_id : String) (project_ids : List String) : Except String (Option String) :=
  let lr := list org_id
  if !lr.success then .error ("LIST_ERROR: " ++ lr.error_message)
  else
    match lr.data with
    | none => .error "LIST_ERROR: No data returned from secrets list"
    | some dat =>
      let secrets := dat.data.getD []
      let matching := matchingIds secrets secret_key
      if matching.isEmpty then .ok none
      else .ok (dup_scan get project_ids matching)

/-- Terminal fetch of `get_secret_value` (source lines 556-564). -/
def fetch_secret_value (get : GetFn) (secret_id : String) : Except String String :=
  let r := get secret_id
  match r.data with
  | some d =>
    if r.success then
      match d.value with
      | none => .error "SDK_ERROR: Secret returned but value is empty/null"
      | some v => .ok v
    else .error ("NOT_FOUND_OR_ERROR: " ++ r.error_message)
  | none => .error ("NOT_FOUND_OR_ERROR: " ++ r.error_message)

/-- Embedding of `get_secret_value` (source lines 515-564). -/
def get_secret_value (login : LoginFn) (list : ListFn) (get : GetFn)
    (access_token secret_identifier : String) (identifier_type : Option String)
    (org_id : Option String) : Except String String :=
  let lr := login access_token
  if !lr.success then .error ("AUTH_ERROR: " ++ lr.error_message)
  else if identifier_type == some "name" then
    if !truthy org_id then
      .error "ORG_ID_REQUIRED: Organization ID is required when using secret name (provide via --org-id or BWS_ORG_ID environment variable)"
    else
      match find_secret_by_name list get secret_identifier org_id with
      | .error e => .error e
      | .ok sid => fetch_secret_value get sid
  else if identifier_type == some "id" then
    if !is_uuid secret_identifier then
      .error ("INVALID_ID: Secret ID must be a valid UUID format. Got: \x27" ++
        secret_identifier ++ "\x27. Use --secret-name for name-based lookup.")
    else fetch_secret_value get secret_identifier
  else fetch_secret_value get secret_identifier

/-- The comprehension `[pid.strip() for pid in project_ids.split(",") if pid.strip()]`. -/
def parse_project_ids (project_ids : String) : List String :=
  (splitComma project_ids.toList).filterMap fun g =>
    let s := stripChars g
    if s.isEmpty then none else some (⟨s⟩ : String)

/-- The project-id validation loop of `create_secret`/`update_secret`: regex
check, then `uuid.UUID(pid)` (which can still fail, e.g. on a regex-accepted
value carrying a trailing newline); the resulting UUID objects are modelled by
their canonical `str()` images. -/
def validate_project_uuids : List String → Except String (List String)
  | [] => .ok []
  | pid :: rest =>
    if !is_uuid pid then
      .error ("INVALID_ID: Project ID must be a valid UUID format. Got: \x27" ++ pid ++ "\x27.")
    else if !uuidParses pid then
      .error ("INVALID_ID: Project ID must be a valid UUID format. Got: \x27" ++ pid ++ "\x27.")
    else
      match validate_project_uuids rest with
      | .error e => .error e
      | .ok l => .ok (uuidCanon pid :: l)

/-- Failure classification at the end of `create_secret`
(source lines 648-654). -/
def create_fail_msg (msg : String) : String :=
  if pyContains msg "404" || pyContains (pyLower msg) "not found" ||
      pyContains msg "Resource not found" then
    "NOT_FOUND: " ++ msg ++ ". This may indicate an invalid organization ID or insufficient permissions."
  else "SDK_ERROR: " ++ msg

/-- Embedding of `create_secret` (source lines 567-654). -/
def create_secret (login : LoginFn) (list : ListFn) (get : GetFn) (create : CreateFn)
    (access_token organization_id key value : String) (note : Option String)
    (project_ids : Option String) (allow_duplicate : Bool) : Except String String :=
  let lr := login access_token
  if !lr.success then .error ("AUTH_ERROR: " ++ lr.error_message)
  else if !is_uuid organization_id then
    .error ("INVALID_ID: Organization ID must be a valid UUID format. Got: \x27" ++
      organization_id ++ "\x27.")
  else if !uuidParses organization_id then
    .error ("INVALID_ID: Organization ID must be a valid UUID format. Got: \x27" ++
      organization_id ++ "\x27.")
  else if !truthy project_ids then
    .error "PROJECT_ID_REQUIRED: At least one project ID is required. Secrets must be created within a project, not at the organization level."
  else
    let project_id_list := parse_project_ids (project_ids.getD "")
    if project_id_list.isEmpty then
      .error "PROJECT_ID_REQUIRED: At least one project ID is required. Secrets must be created within a project, not at the organization level."
    else
      match validate_project_uuids project_id_list with
      | .error e => .error e
      | .ok project_uuid_list =>
        match (if !allow_duplicate then
                check_duplicate_secret list get key organization_id project_uuid_list
              else .ok none) with
        | .error e => .error e
        | .ok (some existing_secret_id) =>
          .error ("DUPLICATE_SECRET: A secret with key \x27" ++ key ++
            "\x27 already exists in one or more of the specified projects (secret ID: " ++
            existing_secret_id ++ "). Use --allow-duplicate to create anyway.")
        | .ok none =>
          let cr := create (uuidCanon organization_id) key value note project_uuid_list
          match cr.data with
          | some d =>
            if cr.success then
              match d.id with
              | none => .error "SDK_ERROR: Secret created but ID is empty/null"
              | some sid => .ok sid
            else .error (create_fail_msg cr.error_message)
          | none => .error (create_fail_msg cr.error_message)

/-- The direct-id validation loop of `resolve_secret_ids`/`delete_secret`
(ids are appended verbatim after the regex check). -/
def validate_secret_uuids : List String → Except String (List String)
  | [] => .ok []
  | sid :: rest =>
    if !is_uuid sid then
      .error ("INVALID_ID: Secret ID must be a valid UUID format. Got: \x27" ++ sid ++ "\x27.")
    else
      match validate_secret_uuids rest with
      | .error e => .error e
      | .ok l => .ok (sid :: l)

/-- Order-preserving de-duplication (source lines 712-718). -/
def dedupe (l : List String) : List String :=
  l.foldl (fun acc sid => if acc.contains sid then acc else acc ++ [sid]) []

/-- Embedding of `resolve_secret_ids` (source lines 657-723). -/
def resolve_secret_ids (login : LoginFn) (list : ListFn) (get : GetFn)
    (access_token : String) (secret_ids : List String) (secret_name : Option String)
    (org_id : Option String) : Except String (List String) :=
  let lr := login access_token
  if !lr.success then .error ("AUTH_ERROR: " ++ lr.error_message)
  else
    match validate_secret_uuids secret_ids with
    | .error e => .error e
    | .ok resolved =>
      if truthy secret_name then
        if !truthy org_id then
          .error "ORG_ID_REQUIRED: Organization ID is required when using --secret-name (provide via --org-id or BWS_ORG_ID environment variable)"
        else
          match find_secret_by_name list get (secret_name.getD "") org_id with
          | .ok sid => .ok (dedupe (resolved ++ [sid]))
          | .error msg =>
            if startswith msg "MULTIPLE_SECRETS:" then
              .error ("MULTIPLE_SECRETS_DELETE: Cannot delete by name when multiple secrets share the same name. " ++
                (strDrop msg 18 ++
                "\n\nFor safety, use --secret-id <uuid> to explicitly specify which secret to delete."))
            else .error msg
      else .ok (dedupe resolved)

/-- The existence-check loop of `delete_secret` (source lines 759-777),
partitioning requested ids into (existing, missing). -/
def delete_existing_partition (get : GetFn) (ids : List String) :
    List String × List String :=
  ids.foldl
    (fun acc sid =>
      let r := get sid
      if r.success && r.data.isSome then (acc.1 ++ [sid], acc.2)
      else (acc.1, acc.2 ++ [sid]))
    ([], [])

/-- Embedding of `delete_secret` (source lines 726-811). -/
def delete_secret (login : LoginFn) (get : GetFn) (del : DeleteFn)
    (access_token : String) (secret_ids : List String) : Except String (List String) :=
  if secret_ids.isEmpty then .error "INVALID_ID: No secret IDs provided for deletion"
  else
    let lr := login access_token
    if !lr.success then .error ("AUTH_ERROR: " ++ lr.error_message)
    else
      match validate_secret_uuids secret_ids with
      | .error e => .error e
      | .ok _ =>
        let part := delete_existing_partition get secret_ids
        if !part.2.isEmpty then
          if part.2.length == 1 then
            .error ("NOT_FOUND: Secret with ID \x27" ++ part.2.headD "" ++
              "\x27 does not exist or you may not have permission to access it.")
          else
            .error ("NOT_FOUND: Secrets with IDs " ++
              joinSep ", " (part.2.map fun sid => "\x27" ++ sid ++ "\x27") ++
              " do not exist or you may not have permission to access them.")
        else if part.1.isEmpty then .ok []
        else
          let dr := del part.1
          if dr.success then .ok part.1
          else
            let msg := dr.error_message
            if pyContains msg "404" || pyContains (pyLower msg) "not found" ||
                pyContains msg "Resource not found" then
              .error ("NOT_FOUND: " ++ msg ++
                ". One or more secrets may not exist or you may not have permission to delete them.")
            else .error ("SDK_ERROR: " ++ msg)

/-- Embedding of `get_secret_for_update` (source lines 814-851). -/
def get_secret_for_update (get : GetFn) (secret_id : String) : Except String SecretData :=
  let r := get secret_id
  if !r.success then
    .error ("NOT_FOUND: Secret with ID \x27" ++ secret_id ++
      "\x27 does not exist or you may not have permission to access it. " ++ r.error_message)
  else
    match r.data with
    | none =>
      .error ("NOT_FOUND: Secret with ID \x27" ++ secret_id ++ "\x27 not found or has no data.")
    | some d => .ok d

/-- Failure classification at the end of `update_secret`
(source lines 1194-1200). -/
def update_fail_msg (msg : String) : String :=
  if pyContains msg "404" || pyContains (pyLower msg) "not found" ||
      pyContains msg "Resource not found" then
    "NOT_FOUND: " ++ msg ++
      ". This may indicate the secret doesn\x27t exist, invalid organization ID, or insufficient permissions."
  else "SDK_ERROR: " ++ msg

/-- Embedding of `update_secret` (source lines 1092-1200): sparse update
fields are merged with the freshly fetched current secret; omitted project ids
fall back to the secret\x27s current project and fail when the secret has
none. -/
def update_secret (login : LoginFn) (get : GetFn) (update : UpdateFn)
    (access_token secret_id organization_id : String)
    (key value note project_ids : Option String) : Except String String :=
  let lr := login access_token
  if !lr.success then .error ("AUTH_ERROR: " ++ lr.error_message)
  else if !is_uuid secret_id then
    .error ("INVALID_ID: Secret ID must be a valid UUID format. Got: \x27" ++
      secret_id ++ "\x27.")
  else if !is_uuid organization_id then
    .error ("INVALID_ID: Organization ID must be a valid UUID format. Got: \x27" ++
      organization_id ++ "\x27.")
  else if !uuidParses organization_id then
    .error ("INVALID_ID: Organization ID must be a valid UUID format. Got: \x27" ++
      organization_id ++ "\x27.")
  else
    match get_secret_for_update get secret_id with
    | .error e => .error e
    | .ok current =>
      let final_key := match key with | some k => some k | none => current.key
      let final_value := match value with | some v => some v | none => current.value
      let final_note := match note with | some n => some n | none => current.note
      let pidsE : Except String (List String) :=
        match project_ids with
        | some pstr =>
          let lst := parse_project_ids pstr
          if lst.isEmpty then
            .error "INVALID_ID: Project IDs cannot be empty. Provide at least one valid UUID."
          else validate_project_uuids lst
        | none =>
          if truthy current.project_id then
            if uuidParses (current.project_id.getD "") then
              .ok [uuidCanon (current.project_id.getD "")]
            else
              .error "INVALID_ID: Current secret has no valid project_id. You must provide --project-ids when updating."
          else
            .error "INVALID_ID: Current secret has no project_id (it may have been removed from its project). You must provide --project-ids when updating to assign it to a project."
      match pidsE with
      | .error e => .error e
      | .ok project_uuid_list =>
        let ur := update (uuidCanon organization_id) secret_id final_key final_value
          final_note project_uuid_list
        match ur.data with
        | some d =>
          if ur.success then
            match d.id with
            | none => .error "SDK_ERROR: Secret updated but ID is empty/null"
            | some sid => .ok sid
          else .error (update_fail_msg ur.error_message)
        | none => .error (update_fail_msg ur.error_message)

/-- A row of the `list` subcommand output (the dicts built by `list_secrets`;
`project_id` and `note` are filled only by the project filter). -/
structure SecretInfo where
  id : String
  key : Option String
  project_id : Option String := none
  note : Option String := none
  deriving DecidableEq

/-- The id/key-pattern filtering pass of `list_secrets`
(source lines 919-939). -/
def list_filter_key (key_pattern : Option String) (secrets : List SecretEntry) :
    List SecretInfo :=
  secrets.filterMap fun s =>
    if !truthy s.id then none
    else if truthy key_pattern &&
        !(truthy s.key && pyContains (s.key.getD "") (key_pattern.getD "")) then none
    else some ⟨s.id.getD "", s.key, none, none⟩

/-- The project-id filtering pass of `list_secrets` (source lines 945-1009):
one `get` per remaining secret; entries without data or without a project id
are dropped. -/
def list_filter_project (get : GetFn) (project_id : String)
    (infos : List SecretInfo) : List SecretInfo :=
  infos.filterMap fun info =>
    let r := get info.id
    if !r.success then none
    else
      match r.data with
      | none => none
      | some d =>
        match d.project_id with
        | none => none
        | some pid =>
          if pid == project_id then
            some { info with project_id := some pid, note := d.note }
          else none

/-- Embedding of `list_secrets` (source lines 854-1016). -/
def list_secrets (login : LoginFn) (list : ListFn) (get : GetFn)
    (access_token organization_id : String) (project_id key_pattern : Option String) :
    Except String (List SecretInfo) :=
  let lr := login access_token
  if !lr.success then .error ("AUTH_ERROR: " ++ lr.error_message)
  else if !is_uuid organization_id then
    .error ("INVALID_ID: Organization ID must be a valid UUID format. Got: \x27" ++
      organization_id ++ "\x27.")
  else if !uuidParses organization_id then
    .error ("INVALID_ID: Organization ID must be a valid UUID format. Got: \x27" ++
      organization_id ++ "\x27.")
  else if truthy project_id && !is_uuid (project_id.getD "") then
    .error ("INVALID_ID: Project ID must be a valid UUID format. Got: \x27" ++
      project_id.getD "" ++ "\x27.")
  else
    let resp := list (uuidCanon organization_id)
    if !resp.success then .error ("LIST_ERROR: " ++ resp.error_message)
    else
      match resp.data with
      | none => .error "LIST_ERROR: No data returned from secrets list"
      | some dat =>
        let secrets := dat.data.getD []
        let filtered := list_filter_key key_pattern secrets
        if truthy project_id then
          .ok (list_filter_project get (project_id.getD "") filtered)
        else .ok filtered

/-! ### JSON output formatting -/

/-- The correct JSON escaping used by `format_secrets_json` (source line
1079): backslash then double quote. -/
def list_json_escape (s : String) : String :=
  pyReplace (pyReplace s "\\" "\\\\") "\"" "\\\""

/-- Embedding of `format_secrets_json` (source lines 1063-1089). -/
def format_secrets_json (secrets : List SecretInfo) : String :=
  if secrets.isEmpty then "[]"
  else
    "[" ++
      joinSep "," (secrets.map fun s =>
        let secret_id := s.id
        let secret_key := s.key.getD ""
        let secret_project_id := s.project_id.getD ""
        let secret_note := s.note.getD ""
        let escaped_key := list_json_escape secret_key
        let escaped_note := list_json_escape secret_note
        let project_json :=
          if !secret_project_id.toList.isEmpty then
            ",\"project_id\":\"" ++ secret_project_id ++ "\""
          else ",\"project_id\":null"
        let note_json :=
          if !secret_note.toList.isEmpty then ",\"note\":\"" ++ escaped_note ++ "\""
          else ",\"note\":null"
        "\x7b\"secret_id\":\"" ++ secret_id ++ "\",\"key\":\"" ++ escaped_key ++ "\"" ++
          project_json ++ note_json ++ "\x7d") ++
      "]"

/-- Value escaping in the JSON output of `handle_get` and `handle_update`
(source lines 1440 and 1838).  The Python replacement arguments are the
two-character pattern backslash-backslash replaced by four backslashes, and
the quote replaced by backslash-backslash-quote, so a lone backslash passes
through unescaped and a quote gains a doubled escape. -/
def get_json_escape_value (v : String) : String :=
  pyReplace (pyReplace v "\\\\" "\\\\\\\\") "\"" "\\\\\""

/-- Key/note escaping in the JSON output of `handle_create` and the note
escaping of `handle_update` (source lines 1550, 1559, 1832): the quote is
replaced by backslash-backslash-quote and backslashes are left untouched. -/
def create_json_escape (s : String) : String :=
  pyReplace s "\"" "\\\\\""

/-- The JSON object printed by `handle_get --json` (source lines 1433-1443). -/
def handle_get_json_out (identifier_type secret_identifier source : String)
    (org_id : Option String) (value : String) : String :=
  let org_json :=
    if truthy org_id then ",\"org_id\":\"" ++ org_id.getD "" ++ "\"" else ""
  "\x7b\"secret_" ++ identifier_type ++ "\":\"" ++ secret_identifier ++ "\"," ++
    "\"source\":\"" ++ source ++ "\"" ++ org_json ++ ",\"value\":\"" ++
    get_json_escape_value value ++ "\"\x7d"

/-! ### Command handlers -/

/-- Exit status of the interpreter when an exception escapes a handler
uncaught (the bare `raise` at source line 1534 can only re-raise a
non-`VALUE_REQUIRED` error, which none of the callees produce). -/
def pyUncaught : Nat := 1

/-- The `except RuntimeError` dispatch of `handle_get`
(source lines 1450-1484). -/
def handle_get_errcode (msg : String) : Nat :=
  if startswith msg "AUTH_ERROR:" then 3
  else if startswith msg "NOT_FOUND_OR_ERROR:" || startswith msg "NOT_FOUND:" then 4
  else if startswith msg "ORG_ID_REQUIRED:" then 2
  else if startswith msg "INVALID_ID:" then 2
  else if startswith msg "LIST_ERROR:" then 5
  else if startswith msg "MULTIPLE_SECRETS:" then 2
  else if startswith msg "SDK_ERROR:" then 5
  else 5

/-- The `except RuntimeError` dispatch of `handle_create`
(source lines 1570-1608). -/
def handle_create_errcode (msg : String) : Nat :=
  if startswith msg "AUTH_ERROR:" then 3
  else if startswith msg "PROJECT_ID_REQUIRED:" then 2
  else if startswith msg "DUPLICATE_SECRET:" then 2
  else if startswith msg "LIST_ERROR:" then 5
  else if startswith msg "INVALID_ID:" then 2
  else if startswith msg "NOT_FOUND:" then 4
  else if startswith msg "SDK_ERROR:" then 5
  else 5

/-- The `except RuntimeError` dispatch of `handle_update`
(source lines 1852-1887). -/
def handle_update_errcode (msg : String) : Nat :=
  if startswith msg "AUTH_ERROR:" then 3
  else if startswith msg "ORG_ID_REQUIRED:" then 2
  else if startswith msg "INVALID_ID:" then 2
  else if startswith msg "NOT_FOUND:" then 4
  else if startswith msg "LIST_ERROR:" then 5
  else if startswith msg "MULTIPLE_SECRETS:" || startswith msg "MULTIPLE_SECRETS_UPDATE:" then 2
  else if startswith msg "SDK_ERROR:" then 5
  else 5

/-- The `except RuntimeError` dispatch of `handle_delete`
(source lines 1998-2033). -/
def handle_delete_errcode (msg : String) : Nat :=
  if startswith msg "AUTH_ERROR:" then 3
  else if startswith msg "ORG_ID_REQUIRED:" then 2
  else if startswith msg "INVALID_ID:" then 2
  else if startswith msg "NOT_FOUND:" then 4
  else if startswith msg "LIST_ERROR:" then 5
  else if startswith msg "MULTIPLE_SECRETS:" || startswith msg "MULTIPLE_SECRETS_DELETE:" then 2
  else if startswith msg "SDK_ERROR:" then 5
  else 5

/-- The `except RuntimeError` dispatch of `handle_list`
(source lines 2083-2103). -/
def handle_list_errcode (msg : String) : Nat :=
  if startswith msg "AUTH_ERROR:" then 3
  else if startswith msg "LIST_ERROR:" then 5
  else if startswith msg "INVALID_ID:" then 2
  else if startswith msg "SDK_ERROR:" then 5
  else 5

/-- Embedding of `handle_get` (source lines 1401-1488): the returned `Nat`
is the process exit code. -/
def handle_get (a : GetArgs) (env : Env) (login : LoginFn) (list : ListFn)
    (get : GetFn) : Nat :=
  if truthy a.secret_id && truthy a.secret_name then 2
  else
    let r := resolve_config a env
    if !truthy r.access_token || !truthy r.secret_identifier then 2
    else
      match get_secret_value login list get (r.access_token.getD "")
          (r.secret_identifier.getD "") r.identifier_type r.org_id with
      | .ok _ => 0
      | .error msg => handle_get_errcode msg

/-- Embedding of `handle_create` (source lines 1491-1622). -/
def handle_create (a : CreateArgs) (env : Env) (stdin : StdinData)
    (login : LoginFn) (list : ListFn) (get : GetFn) (create : CreateFn) : Nat :=
  let r := resolve_create_config a env
  if !truthy r.access_token then 2
  else if !truthy r.org_id then 2
  else if !truthy r.key then 2
  else if !truthy r.project_ids then 2
  else
    match (if truthy r.value then .ok (r.value.getD "")
           else read_value_from_stdin stdin : Except String String) with
    | .error msg => if startswith msg "VALUE_REQUIRED:" then 2 else pyUncaught
    | .ok secret_value =>
      match create_secret login list get create (r.access_token.getD "")
          (r.org_id.getD "") (r.key.getD "") secret_value r.note r.project_ids
          a.allow_duplicate with
      | .ok _ => 0
      | .error msg => handle_create_errcode msg

/-- The name-resolution block inside `handle_update`
(source lines 1683-1698). -/
def update_resolve_name (login : LoginFn) (list : ListFn) (get : GetFn)
    (access_token secret_name : String) (org_id : Option String) :
    Except String String :=
  let lr := login access_token
  if !lr.success then .error ("AUTH_ERROR: " ++ lr.error_message)
  else
    match find_secret_by_name list get secret_name org_id with
    | .ok sid => .ok sid
    | .error msg =>
      if startswith msg "MULTIPLE_SECRETS:" then
        .error ("MULTIPLE_SECRETS_UPDATE: Cannot update by name when multiple secrets share the same name. " ++
          (strDrop msg 18 ++
          "\n\nFor safety, use --secret-id <uuid> to explicitly specify which secret to update."))
      else .error msg

/-- Outcome of the `try` block of `handle_update`: an explicit early
`return n`, a raised error, or completion with the updated id. -/
inductive HOut where
  | code (n : Nat)
  | err (msg : String)
  | done (secret_id : String)
  deriving DecidableEq

/-- The `try` block of `handle_update` (source lines 1668-1850). -/
def handle_update_body (r : ResolvedUpdate) (force : Bool) (stdin : StdinData)
    (login : LoginFn) (list : ListFn) (get : GetFn) (update : UpdateFn) : HOut :=
  match (if truthy r.secret_name then
          if !truthy r.org_id then
            .error "ORG_ID_REQUIRED: Organization ID is required when using --secret-name (provide via --org-id or BWS_ORG_ID environment variable)"
          else
            match update_resolve_name login list get (r.access_token.getD "")
                (r.secret_name.getD "") r.org_id with
            | .ok sid => .ok (some sid)
            | .error e => .error e
        else .ok r.secret_id : Except String (Option String)) with
  | .error e => .err e
  | .ok rid =>
    if !truthy rid then .code 2
    else
      let resolved_secret_id := rid.getD ""
      match (if !truthy r.org_id then
              let lr := login (r.access_token.getD "")
              if !lr.success then .inl (.err ("AUTH_ERROR: " ++ lr.error_message))
              else
                match get_secret_for_update get resolved_secret_id with
                | .error msg =>
                  if startswith msg "NOT_FOUND:" then .inl (.code 4) else .inl (.err msg)
                | .ok current =>
                  if !truthy current.organization_id then .inl (.code 2)
                  else .inr (current, current.organization_id.getD "")
            else
              let lr := login (r.access_token.getD "")
              if !lr.success then .inl (.err ("AUTH_ERROR: " ++ lr.error_message))
              else
                match get_secret_for_update get resolved_secret_id with
                | .error msg =>
                  if startswith msg "NOT_FOUND:" then .inl (.code 4) else .inl (.err msg)
                | .ok current => .inr (current, r.org_id.getD "")
            : HOut ⊕ (SecretData × String)) with
      | .inl out => out
      | .inr (current, resolved_org_id) =>
        match (if !truthy current.project_id then
                if !truthy r.project_ids then some 2
                else if !force then
                  if stdin.isatty then
                    match stdin.input with
                    | none => some 2
                    | some resp =>
                      if pyLower (pyStrip resp) == "y" || pyLower (pyStrip resp) == "yes" then
                        none
                      else some 2
                  else some 2
                else none
              else none : Option Nat) with
        | some n => .code n
        | none =>
          match (match r.value with
                | none => .ok none
                | some v =>
                  -- the resolver maps an empty `--value` to None, so this
                  -- stdin fallback (source lines 1801-1811) is unreachable;
                  -- kept for structural fidelity
                  if v.toList.isEmpty then
                    match read_value_from_stdin stdin with
                    | .ok sv => .ok (some sv)
                    | .error msg =>
                      if startswith msg "VALUE_REQUIRED:" then .ok none else .error msg
                  else .ok (some v) : Except String (Option String)) with
          | .error e => .err e
          | .ok secret_value =>
            match update_secret login get update (r.access_token.getD "")
                resolved_secret_id resolved_org_id r.key secret_value r.note
                r.project_ids with
            | .error e => .err e
            | .ok sid => .done sid

/-- Embedding of `handle_update` (source lines 1625-1896). -/
def handle_update (a : UpdateArgs) (env : Env) (stdin : StdinData)
    (login : LoginFn) (list : ListFn) (get : GetFn) (update : UpdateFn) : Nat :=
  if truthy a.secret_id && truthy a.secret_name then 2
  else if !truthy a.secret_id && !truthy a.secret_name then 2
  else
    let r := resolve_update_config a env
    if !truthy r.access_token then 2
    else if truthy r.secret_name && !truthy r.org_id then 2
    else if !truthy r.key && !truthy r.value && !truthy r.note && !truthy r.project_ids then 2
    else
      match handle_update_body r a.force stdin login list get update with
      | .code n => n
      | .done _ => 0
      | .err msg => handle_update_errcode msg

/-- Embedding of `handle_delete` (source lines 1899-2042). -/
def handle_delete (a : DeleteArgs) (env : Env) (stdin : StdinData)
    (login : LoginFn) (list : ListFn) (get : GetFn) (del : DeleteFn) : Nat :=
  if a.secret_id.isEmpty && !truthy a.secret_name then 2
  else
    let r := resolve_delete_config a env
    if !truthy r.access_token then 2
    else if truthy r.secret_name && !truthy r.org_id then 2
    else if r.secret_ids.isEmpty && !truthy r.secret_name then 2
    else
      match resolve_secret_ids login list get (r.access_token.getD "")
          r.secret_ids r.secret_name r.org_id with
      | .error msg => handle_delete_errcode msg
      | .ok resolved =>
        if resolved.isEmpty then 2
        else
          let proceed := fun (_ : Unit) =>
            match delete_secret login get del (r.access_token.getD "") resolved with
            | .ok _ => 0
            | .error msg => handle_delete_errcode msg
          if !a.force then
            if stdin.isatty then
              match stdin.input with
              | none => 2
              | some resp =>
                if pyLower (pyStrip resp) == "y" || pyLower (pyStrip resp) == "yes" then
                  proceed ()
                else 2
            else 2
          else proceed ()

/-- Embedding of `handle_list` (source lines 2045-2107). -/
def handle_list (a : ListArgs) (env : Env) (login : LoginFn) (list : ListFn)
    (get : GetFn) : Nat :=
  let r := resolve_list_config a env
  if !truthy r.access_token then 2
  else if !truthy r.org_id then 2
  else
    match list_secrets login list get (r.access_token.getD "") (r.org_id.getD "")
        r.project_id r.key_pattern with
    | .ok _ => 0
    | .error msg => handle_list_errcode msg

/-! ### Specification-side predicates and proof fixtures -/

/-- A hexadecimal group of the stated length (specification side). -/
def hexGroup (n : Nat) (l : List Char) : Prop :=
  l.length = n ∧ ∀ c ∈ l, hexCI c = true

/-- The canonical UUID shape on character lists: five hex groups of lengths
8-4-4-4-12 joined by hyphens, and nothing else. -/
def uuid_core (l : List Char) : Prop :=
  ∃ a b c d e : List Char,
    hexGroup 8 a ∧ hexGroup 4 b ∧ hexGroup 4 c ∧ hexGroup 4 d ∧ hexGroup 12 e ∧
    l = a ++ '-' :: (b ++ '-' :: (c ++ '-' :: (d ++ '-' :: e)))

/-- The canonical UUID pattern of the claim, on strings. -/
def uuid_canonical (s : String) : Prop := uuid_core s.toList

/-- Flat encoding of one SDK update call (used by the recording oracle to
expose exactly which arguments `update_secret` sends to the backend). -/
def encodeCall (org id : String) (k v n : Option String) (pids : List String) : String :=
  org ++ "|" ++ id ++ "|" ++ k.getD "<none>" ++ "|" ++ v.getD "<none>" ++ "|" ++
    n.getD "<none>" ++ "|" ++ joinSep "," pids

/-- An update entry point that records its arguments in the returned id. -/
def recordingUpdate : UpdateFn := fun org id k v n pids =>
  ⟨true, "", some ⟨some (encodeCall org id k v n pids), none, none, none, none, none⟩⟩

/-- Fixture: a login entry point that always succeeds. -/
def loginOK : LoginFn := fun _ => ⟨true, "", some ()⟩

/-- Fixture: a listing entry point returning an empty organization. -/
def listEmpty : ListFn := fun _ => ⟨true, "", some ⟨some []⟩⟩

/-- Fixture: a get entry point returning one fixed secret. -/
def getStub : GetFn := fun _ =>
  ⟨true, "", some ⟨some "id-1", some "k", some "v", none,
    some "cccccccc-cccc-cccc-cccc-cccccccccccc",
    some "bbbbbbbb-bbbb-bbbb-bbbb-bbbbbbbbbbbb"⟩⟩

/-- Fixture: a create entry point that succeeds with id `nid`. -/
def createOK : CreateFn := fun _ _ _ _ _ =>
  ⟨true, "", some ⟨some "nid", none, none, none, none, none⟩⟩

/-- Fixture: an update entry point that succeeds with id `uid`. -/
def updateOK : UpdateFn := fun _ _ _ _ _ _ =>
  ⟨true, "", some ⟨some "uid", none, none, none, none, none⟩⟩

/-- Fixture: a delete entry point that succeeds. -/
def deleteOK : DeleteFn := fun _ => ⟨true, "", some ()⟩

/-! ### String prefix lemmas used to evaluate the error dispatchers -/

theorem toList_append (a b : String) : (a ++ b).toList = a.toList ++ b.toList := by
  simp [String.toList]

theorem isPrefixOf_append_false_aux :
    ∀ (p q d : List Char), (p.take q.length).isPrefixOf q = false →
      p.isPrefixOf (q ++ d) = false := by
  intro p
  induction p with
  | nil => intro q d h; simp [List.isPrefixOf] at h
  | cons a p ih =>
    intro q d h
    cases q with
    | nil => simp [List.isPrefixOf] at h
    | cons b q =>
      simp only [List.length_cons, List.take_succ_cons, List.isPrefixOf] at h ⊢
      rcases Bool.and_eq_false_iff.mp h with h1 | h2
      · simp [h1]
      · simp [ih q d h2]

theorem isPrefixOf_append_of_le :
    ∀ (p q d : List Char), p.length ≤ q.length →
      p.isPrefixOf (q ++ d) = p.isPrefixOf q := by
  intro p
  induction p with
  | nil => intro q d _; simp [List.isPrefixOf]
  | cons a p ih =>
    intro q d h
    cases q with
    | nil => simp at h
    | cons b q =>
      simp only [List.cons_append, List.isPrefixOf, List.append_eq]
      rw [ih q d (by simpa using h)]

theorem startswith_append_stable (base pre d : String) (h : swStable base pre = true) :
    startswith (base ++ d) pre = startswith base pre := by
  unfold swStable at h
  unfold startswith
  rw [toList_append]
  rcases Bool.or_eq_true_iff.mp h with h1 | h2
  · exact isPrefixOf_append_of_le _ _ _ (of_decide_eq_true h1)
  · have h2' : (pre.toList.take base.toList.length).isPrefixOf base.toList = false := by
      simpa using h2
    rw [isPrefixOf_append_false_aux _ _ _ h2']
    have h3 : pre.toList.isPrefixOf (base.toList ++ []) = false :=
      isPrefixOf_append_false_aux _ _ _ h2'
    simpa using h3.symm


/-! ### Claim C9: `is_uuid` -/

theorem matchHex_some_iff :
    ∀ (n : Nat) (cs r : List Char), matchHex n cs = some r ↔
      ∃ g, cs = g ++ r ∧ hexGroup n g := by
  intro n
  induction n with
  | zero =>
    intro cs r
    constructor
    · intro h
      have h' : cs = r := by simpa [matchHex] using h
      exact ⟨[], by simp [h'], rfl, by simp⟩
    · rintro ⟨g, rfl, hlen, _⟩
      have hg : g = [] := List.eq_nil_of_length_eq_zero hlen
      simp [hg, matchHex]
  | succ n ih =>
    intro cs r
    cases cs with
    | nil =>
      simp only [matchHex]
      constructor
      · intro h; cases h
      · rintro ⟨g, hg, hlen, _⟩
        cases g with
        | nil => simp [hexGroup] at hlen
        | cons x xs => simp at hg
    | cons c cs =>
      simp only [matchHex]
      by_cases hc : hexCI c = true
      · rw [if_pos hc, ih cs r]
        constructor
        · rintro ⟨g, rfl, hlen, hhex⟩
          refine ⟨c :: g, rfl, by simp [hlen], ?_⟩
          intro x hx
          rcases List.mem_cons.mp hx with rfl | hx
          · exact hc
          · exact hhex x hx
        · rintro ⟨g, hg, hlen, hhex⟩
          cases g with
          | nil => simp at hlen
          | cons x xs =>
            injection hg with h1 h2
            subst h1
            refine ⟨xs, by simpa using h2, by simpa using hlen, ?_⟩
            intro y hy
            exact hhex y (List.mem_cons_of_mem _ hy)
      · rw [if_neg hc]
        constructor
        · intro h; cases h
        · rintro ⟨g, hg, hlen, hhex⟩
          cases g with
          | nil => simp at hlen
          | cons x xs =>
            injection hg with h1 h2
            subst h1
            exact absurd (hhex c (by simp)) hc

theorem matchDash_some_iff (cs r : List Char) :
    matchDash cs = some r ↔ cs = '-' :: r := by
  cases cs with
  | nil => simp [matchDash]
  | cons c cs =>
    simp only [matchDash]
    by_cases hc : c = '-'
    · subst hc; simp
    · rw [if_neg (by simpa using hc)]
      constructor
      · intro h; cases h
      · intro h
        injection h with h1 _
        exact absurd h1 hc

theorem uuidMatch_some_iff (cs r : List Char) :
    uuidMatch cs = some r ↔
      ∃ a b c d e : List Char,
        hexGroup 8 a ∧ hexGroup 4 b ∧ hexGroup 4 c ∧ hexGroup 4 d ∧ hexGroup 12 e ∧
        cs = a ++ '-' :: (b ++ '-' :: (c ++ '-' :: (d ++ '-' :: (e ++ r)))) := by
  simp only [uuidMatch, Option.bind_eq_some, matchHex_some_iff, matchDash_some_iff]
  constructor
  · rintro ⟨r1, ⟨a, rfl, ha⟩, r2, rfl, r3, ⟨b, rfl, hb⟩, r4, rfl, r5, ⟨c, rfl, hc⟩,
      r6, rfl, r7, ⟨d, rfl, hd⟩, r8, rfl, e, rfl, he⟩
    exact ⟨a, b, c, d, e, ha, hb, hc, hd, he, by simp⟩
  · rintro ⟨a, b, c, d, e, ha, hb, hc, hd, he, rfl⟩
    refine ⟨_, ⟨a, ?_, ha⟩, _, rfl, _, ⟨b, rfl, hb⟩, _, rfl, _, ⟨c, rfl, hc⟩,
      _, rfl, _, ⟨d, rfl, hd⟩, _, rfl, e, rfl, he⟩
    simp

theorem uuidMatch_some_iff_core (cs r : List Char) :
    uuidMatch cs = some r ↔ ∃ l, uuid_core l ∧ cs = l ++ r := by
  rw [uuidMatch_some_iff]
  constructor
  · rintro ⟨a, b, c, d, e, ha, hb, hc, hd, he, rfl⟩
    exact ⟨_, ⟨a, b, c, d, e, ha, hb, hc, hd, he, rfl⟩, by simp⟩
  · rintro ⟨l, ⟨a, b, c, d, e, ha, hb, hc, hd, he, rfl⟩, rfl⟩
    exact ⟨a, b, c, d, e, ha, hb, hc, hd, he, by simp⟩

theorem is_uuid_cases (s : String) :
    is_uuid s = true ↔
      uuidMatch s.toList = some [] ∨ uuidMatch s.toList = some ['\n'] := by
  unfold is_uuid
  rcases h : uuidMatch s.toList with _ | rest <;>
    simp [List.isEmpty_iff, beq_iff_eq]

theorem uuid_core_length (l : List Char) (h : uuid_core l) : l.length = 36 := by
  obtain ⟨a, b, c, d, e, ha, hb, hc, hd, he, rfl⟩ := h
  simp [ha.1, hb.1, hc.1, hd.1, he.1]

/-- C9 (counterexample): the claim says `is_uuid` rejects every string with
extra trailing characters, but the Python `$` anchor accepts a canonical UUID
followed by one newline. -/
theorem C9_counterexample :
    is_uuid "00000000-0000-0000-0000-000000000000\n" = true ∧
      ¬ uuid_canonical "00000000-0000-0000-0000-000000000000\n" := by
  constructor
  · decide
  · intro h
    have h36 := uuid_core_length _ h
    have h37 : ("00000000-0000-0000-0000-000000000000\n".toList).length = 37 := by decide
    omega

/-- C9 (amended): `is_uuid` returns true exactly on the canonical
case-insensitive 8-4-4-4-12 hex pattern, optionally followed by one single
trailing newline (the Python `$` anchor semantics); it returns false on every
other string. -/
theorem C9_is_uuid_characterization (s : String) :
    is_uuid s = true ↔
      uuid_canonical s ∨ ∃ t : String, uuid_canonical t ∧ s = t ++ "\n" := by
  rw [is_uuid_cases, uuidMatch_some_iff_core, uuidMatch_some_iff_core]
  unfold uuid_canonical
  constructor
  · rintro (⟨l, hl, hsl⟩ | ⟨l, hl, hsl⟩)
    · left
      rw [show s.toList = l by simpa using hsl]
      exact hl
    · right
      refine ⟨⟨l⟩, by simpa [String.toList] using hl, ?_⟩
      apply String.ext
      have : ((⟨l⟩ : String) ++ "\n").data = l ++ ['\n'] := by
        simp [String.data_append]
      rw [this]
      simpa [String.toList] using hsl
  · rintro (h | ⟨t, ht, rfl⟩)
    · exact Or.inl ⟨s.toList, h, by simp⟩
    · right
      refine ⟨t.toList, ht, ?_⟩
      simp [toList_append]

/-! ### Claims C10, C3, C2, C8 -/

theorem cliIdPair_type (a : GetArgs) (h : truthy (cliIdPair a).1 = true) :
    (cliIdPair a).2 = some "id" ∨ (cliIdPair a).2 = some "name" := by
  unfold cliIdPair at h ⊢
  split_ifs with h1 h2 <;> simp_all [truthy]

theorem envIdPair_of_truthy (env : Env) (p : Option String × Option String)
    (h : truthy p.1 = true) : envIdPair env p = p := by
  simp [envIdPair, h]

theorem cliIdPair_fst (a : GetArgs) :
    (cliIdPair a).1 = (if truthy a.secret_id then a.secret_id
      else if truthy a.secret_name then a.secret_name else none) := by
  unfold cliIdPair
  split_ifs <;> rfl

theorem envFallback_shape (env : Env) :
    ((envFallback env).source = "missing" ∧ (envFallback env).access_token = none ∧
      (envFallback env).secret_identifier = none ∧ (envFallback env).org_id = none ∧
      (envFallback env).identifier_type = none) ∨
    (((envFallback env).source = "cli" ∨ (envFallback env).source = "env") ∧
      truthy (envFallback env).access_token = true ∧
      truthy (envFallback env).secret_identifier = true ∧
      ((envFallback env).identifier_type = some "id" ∨
        (envFallback env).identifier_type = some "name")) := by
  unfold envFallback
  split_ifs with h1 h2 h3 <;> simp_all

/-- C10: every result of `resolve_config` has one of exactly two shapes:
the `missing` sentinel with all four components `None`, or a result whose
access token and secret identifier are non-empty and whose identifier type is
`id` or `name` (with source `cli` or `env`, hence not `missing`). -/
theorem C10_resolve_config_shape (a : GetArgs) (env : Env) :
    ((resolve_config a env).source = "missing" ∧
      (resolve_config a env).access_token = none ∧
      (resolve_config a env).secret_identifier = none ∧
      (resolve_config a env).org_id = none ∧
      (resolve_config a env).identifier_type = none) ∨
    (((resolve_config a env).source = "cli" ∨ (resolve_config a env).source = "env") ∧
      truthy (resolve_config a env).access_token = true ∧
      truthy (resolve_config a env).secret_identifier = true ∧
      ((resolve_config a env).identifier_type = some "id" ∨
        (resolve_config a env).identifier_type = some "name")) := by
  unfold resolve_config
  dsimp only
  by_cases h1 : (a.access_token.isSome && truthy (cliIdPair a).1) = true
  · rw [if_pos h1]
    have hidt : truthy (cliIdPair a).1 = true := (Bool.and_eq_true _ _ |>.mp h1).2
    by_cases h2 : (truthy a.access_token && truthy (cliIdPair a).1) = true
    · rw [if_pos h2]
      exact Or.inr ⟨Or.inl rfl, (Bool.and_eq_true _ _ |>.mp h2).1, hidt,
        cliIdPair_type a hidt⟩
    · rw [if_neg h2, envIdPair_of_truthy env _ hidt]
      by_cases h3 : (truthy (if truthy a.access_token then a.access_token
          else env.access_token) && truthy (cliIdPair a).1) = true
      · rw [if_pos h3]
        exact Or.inr ⟨Or.inl rfl, (Bool.and_eq_true _ _ |>.mp h3).1, hidt,
          cliIdPair_type a hidt⟩
      · rw [if_neg h3]
        exact envFallback_shape env
  · rw [if_neg h1]
    exact envFallback_shape env

/-- C3 (counterexample): with `--access-token clitok` on the CLI and the
identifier available only from the environment, `resolve_config` resolves the
access token to the environment value even though the CLI value is a
non-empty string (the CLI branch requires a CLI identifier as well). -/
theorem C3_counterexample :
    truthy ({ access_token := some "clitok" } : GetArgs).access_token = true ∧
    (resolve_config { access_token := some "clitok" }
        { access_token := some "envtok", secret_id := some "s1" }).access_token
      = some "envtok" ∧
    (some "envtok" : Option String) ≠ some "clitok" := by
  refine ⟨by decide, by decide, by decide⟩

theorem resolveField_eq (cli envv : Option String) :
    resolveField cli envv = if truthy cli then cli else envv := by
  cases cli <;> simp [resolveField, truthy]

/-- C3 (amended): field-by-field CLI-over-environment precedence (non-empty
CLI wins, absent or empty CLI falls through to the environment) holds
unconditionally for the create and delete resolvers (whose subcommand-specific
fields have no environment fallback and resolve to the CLI value or `None`);
for the get resolver it holds only when the `--access-token` flag is present,
a CLI secret identifier is non-empty, and an access token is available from
the CLI or the environment — otherwise `resolve_config` falls back to the
environment wholesale or reports `missing`. -/
theorem C3_precedence :
    (∀ (a : CreateArgs) (env : Env),
      (resolve_create_config a env).access_token =
        (if truthy a.access_token then a.access_token else env.access_token) ∧
      (resolve_create_config a env).org_id =
        (if truthy a.org_id then a.org_id else env.org_id) ∧
      (resolve_create_config a env).key = (if truthy a.key then a.key else none) ∧
      (resolve_create_config a env).value = (if truthy a.value then a.value else none) ∧
      (resolve_create_config a env).note = (if truthy a.note then a.note else none) ∧
      (resolve_create_config a env).project_ids =
        (if truthy a.project_ids then a.project_ids else none)) ∧
    (∀ (a : DeleteArgs) (env : Env),
      (resolve_delete_config a env).access_token =
        (if truthy a.access_token then a.access_token else env.access_token) ∧
      (resolve_delete_config a env).org_id =
        (if truthy a.org_id then a.org_id else env.org_id) ∧
      (resolve_delete_config a env).secret_ids = parse_delete_ids a.secret_id ∧
      (resolve_delete_config a env).secret_name =
        (if truthy a.secret_name then a.secret_name else none)) ∧
    (∀ (a : GetArgs) (env : Env),
      a.access_token.isSome = true →
      (truthy a.secret_id = true ∨ truthy a.secret_name = true) →
      (truthy a.access_token = true ∨ truthy env.access_token = true) →
      (resolve_config a env).access_token =
        (if truthy a.access_token then a.access_token else env.access_token) ∧
      (resolve_config a env).secret_identifier =
        (if truthy a.secret_id then a.secret_id else a.secret_name) ∧
      (resolve_config a env).org_id =
        (if truthy a.org_id then a.org_id else env.org_id)) := by
  refine ⟨?_, ?_, ?_⟩
  · intro a env
    simp [resolve_create_config, resolveField_eq]
  · intro a env
    simp [resolve_delete_config, resolveField_eq]
  · intro a env hsome hid htok
    have hfst : (cliIdPair a).1 =
        (if truthy a.secret_id then a.secret_id else a.secret_name) := by
      rw [cliIdPair_fst]
      rcases Bool.eq_false_or_eq_true (truthy a.secret_id) with hsid | hsid
      · simp [hsid]
      · rcases hid with hid | hid
        · rw [hsid] at hid; cases hid
        · simp [hsid, hid]
    have hidt : truthy (cliIdPair a).1 = true := by
      rw [hfst]
      rcases Bool.eq_false_or_eq_true (truthy a.secret_id) with hsid | hsid
      · simp [hsid]
      · rcases hid with hid | hid
        · rw [hsid] at hid; cases hid
        · simp [hsid, hid]
    unfold resolve_config
    dsimp only
    rw [if_pos (by rw [hsome, hidt]; rfl)]
    rcases Bool.eq_false_or_eq_true (truthy a.access_token) with hat | hat
    · rw [if_pos (by rw [hat, hidt]; rfl)]
      exact ⟨by simp [hat], by simpa [hat] using hfst, by simp [pyOr]⟩
    · have henv : truthy env.access_token = true := by
        rcases htok with htok | htok
        · rw [hat] at htok; cases htok
        · exact htok
      rw [if_neg (by simp [hat]), envIdPair_of_truthy env _ hidt]
      rw [if_pos (by simp [hat, henv, hidt])]
      exact ⟨by simp [hat], by simpa [hat] using hfst, by simp [pyOr]⟩

/-- C3 (witness): the amended get-resolver clause applied at a concrete
input. -/
theorem C3_precedence_witness :
    (resolve_config { access_token := some "clitok", secret_id := some "sid1" }
        { access_token := some "envtok", org_id := some "envorg" }).access_token
      = some "clitok" ∧
    (resolve_config { access_token := some "clitok", secret_id := some "sid1" }
        { access_token := some "envtok", org_id := some "envorg" }).org_id
      = some "envorg" :=
  ⟨((C3_precedence.2.2 _ _ (by decide) (Or.inl (by decide)) (Or.inl (by decide))).1).trans
      (by decide),
    ((C3_precedence.2.2 _ _ (by decide) (Or.inl (by decide)) (Or.inl (by decide))).2.2).trans
      (by decide)⟩

/-- C2 (counterexample): `handle_delete` performs no both-flags guard: with
non-empty `--secret-id` and `--secret-name` it proceeds to the backend (here
authentication fails), returning exit code 3, not 2. -/
theorem C2_counterexample :
    truthy (some "foo") = true ∧
    handle_delete
      { secret_id := ["aaaaaaaa-aaaa-aaaa-aaaa-aaaaaaaaaaaa"],
        secret_name := some "foo", access_token := some "tok",
        org_id := some "bbbbbbbb-bbbb-bbbb-bbbb-bbbbbbbbbbbb", force := true }
      {} ⟨false, "", none⟩
      (fun _ => ⟨false, "bad token", none⟩) (fun _ => ⟨false, "x", none⟩)
      (fun _ => ⟨false, "x", none⟩) (fun _ => ⟨false, "x", none⟩) = 3 := by
  refine ⟨by decide, by decide⟩

/-- C2 (amended): `handle_get` and `handle_update` return exit code 2
whenever both `--secret-id` and `--secret-name` are supplied non-empty,
independently of every SDK entry point (so no client call can influence the
result); `handle_delete` has no such guard and proceeds to contact the
backend with both identifiers as deletion targets. -/
theorem C2_both_flags_guard :
    (∀ (a : GetArgs) (env : Env) (login : LoginFn) (list : ListFn) (get : GetFn),
      truthy a.secret_id = true → truthy a.secret_name = true →
      handle_get a env login list get = 2) ∧
    (∀ (a : UpdateArgs) (env : Env) (stdin : StdinData) (login : LoginFn)
        (list : ListFn) (get : GetFn) (update : UpdateFn),
      truthy a.secret_id = true → truthy a.secret_name = true →
      handle_update a env stdin login list get update = 2) := by
  constructor
  · intro a env login list get h1 h2
    simp [handle_get, h1, h2]
  · intro a env stdin login list get update h1 h2
    simp [handle_update, h1, h2]

/-- C2 (witness): the guard theorem applied at concrete inputs. -/
theorem C2_both_flags_guard_witness :
    handle_get { secret_id := some "x", secret_name := some "y" } {}
      (fun _ => ⟨true, "", some ()⟩) (fun _ => ⟨true, "", none⟩)
      (fun _ => ⟨true, "", none⟩) = 2 ∧
    handle_update { secret_id := some "x", secret_name := some "y" } {}
      ⟨false, "", none⟩ (fun _ => ⟨true, "", some ()⟩) (fun _ => ⟨true, "", none⟩)
      (fun _ => ⟨true, "", none⟩) (fun _ _ _ _ _ _ => ⟨true, "", none⟩) = 2 :=
  ⟨C2_both_flags_guard.1 _ _ _ _ _ (by decide) (by decide),
    C2_both_flags_guard.2 _ _ _ _ _ _ _ (by decide) (by decide)⟩

/-- C8: evaluation of the JSON escaping at inputs containing a double quote
or a backslash.  `format_secrets_json` escapes correctly (quote becomes
backslash-quote, backslash becomes doubled backslash), but the `get`/`update`
value escaping turns a quote into backslash-backslash-quote and leaves a lone
backslash untouched, and the `create` key/note escaping does the same — both
contrary to the claimed JSON escaping. -/
theorem C8_escaping_evaluation :
    list_json_escape "a\"b" = "a\\\"b" ∧
    list_json_escape "a\\b" = "a\\\\b" ∧
    get_json_escape_value "a\"b" = "a\\\\\"b" ∧
    get_json_escape_value "a\\b" = "a\\b" ∧
    create_json_escape "a\"b" = "a\\\\\"b" ∧
    create_json_escape "a\\b" = "a\\b" ∧
    get_json_escape_value "a\"b" ≠ list_json_escape "a\"b" ∧
    handle_get_json_out "id" "sid" "cli" none "a\"b" =
      "\x7b\"secret_id\":\"sid\",\"source\":\"cli\",\"value\":\"a\\\\\"b\"\x7d" := by
  refine ⟨by decide, by decide, by decide, by decide, by decide, by decide, by decide,
    by decide⟩

/-! ### Claim C4: name resolution -/

theorem matchingIds_eq_filter (entries : List SecretEntry) (name : String)
    (hwf : ∀ e ∈ entries, truthy e.id = true) :
    matchingIds entries name =
      (entries.filter fun e => e.key == some name).map fun e => e.id.getD "" := by
  induction entries with
  | nil => rfl
  | cons e es ih =>
    have he : truthy e.id = true := hwf e (by simp)
    have ih' := ih fun x hx => hwf x (List.mem_cons_of_mem _ hx)
    by_cases hk : (e.key == some name) = true
    · have hcond : (e.key == some name && truthy e.id) = true := by rw [hk, he]; rfl
      simp [matchingIds, hcond, List.filter_cons, hk, he, ih']
    · have hk' : (e.key == some name) = false := by rwa [Bool.not_eq_true] at hk
      have hcond : (e.key == some name && truthy e.id) = false := by rw [hk']; rfl
      simp [matchingIds, hcond, List.filter_cons, hk', ih']

/-- C4: with a successful listing whose entries all carry ids, exact-key name
resolution fails with `NOT_FOUND` (exit code 4 in the handlers that catch it)
on zero matches, returns the unique id on one match, and on two or more
matches fails with `MULTIPLE_SECRETS`, which the delete path re-raises as
`MULTIPLE_SECRETS_DELETE` and the update path as `MULTIPLE_SECRETS_UPDATE`
(both mapped to exit code 2) instead of acting on any match. -/
theorem C4_name_resolution (login : LoginFn) (list : ListFn) (get : GetFn)
    (tok name org em : String) (entries : List SecretEntry)
    (hlist : list org = ⟨true, em, some ⟨some entries⟩⟩)
    (horg : truthy (some org) = true)
    (hname : truthy (some name) = true)
    (hlogin : (login tok).success = true)
    (hwf : ∀ e ∈ entries, truthy e.id = true) :
    ((entries.filter fun e => e.key == some name) = [] →
      find_secret_by_name list get name (some org) =
        .error ("NOT_FOUND: Secret with name/key \x27" ++ (name ++ "\x27 not found")) ∧
      handle_get_errcode
        ("NOT_FOUND: Secret with name/key \x27" ++ (name ++ "\x27 not found")) = 4 ∧
      handle_delete_errcode
        ("NOT_FOUND: Secret with name/key \x27" ++ (name ++ "\x27 not found")) = 4 ∧
      handle_update_errcode
        ("NOT_FOUND: Secret with name/key \x27" ++ (name ++ "\x27 not found")) = 4) ∧
    (∀ e, (entries.filter fun e => e.key == some name) = [e] →
      find_secret_by_name list get name (some org) = .ok (e.id.getD "")) ∧
    (2 ≤ (entries.filter fun e => e.key == some name).length →
      (∃ msg, find_secret_by_name list get name (some org) = .error msg ∧
        startswith msg "MULTIPLE_SECRETS:" = true) ∧
      (∃ msg, resolve_secret_ids login list get tok [] (some name) (some org) =
          .error msg ∧
        startswith msg "MULTIPLE_SECRETS_DELETE:" = true ∧
        handle_delete_errcode msg = 2) ∧
      (∃ msg, update_resolve_name login list get tok name (some org) = .error msg ∧
        startswith msg "MULTIPLE_SECRETS_UPDATE:" = true ∧
        handle_update_errcode msg = 2)) := by
  have hmm := matchingIds_eq_filter entries name hwf
  refine ⟨?_, ?_, ?_⟩
  · intro hm
    have hm0 : matchingIds entries name = [] := by rw [hmm, hm]; rfl
    refine ⟨?_, ?_, ?_, ?_⟩
    · simp [find_secret_by_name, horg, hlist, hm0]
    · simp +decide only [handle_get_errcode, startswith_append_stable]
    · simp +decide only [handle_delete_errcode, startswith_append_stable]
    · simp +decide only [handle_update_errcode, startswith_append_stable]
  · intro e hm
    have hm1 : matchingIds entries name = [e.id.getD ""] := by rw [hmm, hm]; rfl
    simp [find_secret_by_name, horg, hlist, hm1]
  · intro hlen
    have hlen' : 2 ≤ (matchingIds entries name).length := by
      rw [hmm, List.length_map]; exact hlen
    obtain ⟨x, y, t, hxy⟩ : ∃ x y t, matchingIds entries name = x :: y :: t := by
      cases hmat : matchingIds entries name with
      | nil => rw [hmat] at hlen'; simp at hlen'
      | cons x t1 =>
        cases t1 with
        | nil => rw [hmat] at hlen'; simp at hlen'
        | cons y t => exact ⟨x, y, t, rfl⟩
    have hfind : find_secret_by_name list get name (some org) =
        .error ("MULTIPLE_SECRETS: Found " ++ (toString (x :: y :: t).length ++
          (" secrets with name/key \x27" ++ (name ++ ("\x27:\n" ++
          (joinSep "\n" (multi_detail_lines get (x :: y :: t)) ++
          "\n\nTo disambiguate, use --secret-id <uuid> with one of the secret IDs above.")))))) := by
      simp [find_secret_by_name, horg, hlist, hxy]
    obtain ⟨rest, hfind'⟩ : ∃ rest, find_secret_by_name list get name (some org) =
        .error ("MULTIPLE_SECRETS: Found " ++ rest) := ⟨_, hfind⟩
    have hsw : startswith ("MULTIPLE_SECRETS: Found " ++ rest) "MULTIPLE_SECRETS:" = true := by
      rw [startswith_append_stable _ _ _ (by decide)]; decide
    have hres : resolve_secret_ids login list get tok [] (some name) (some org) =
        .error ("MULTIPLE_SECRETS_DELETE: Cannot delete by name when multiple secrets share the same name. " ++
          (strDrop ("MULTIPLE_SECRETS: Found " ++ rest) 18 ++
            "\n\nFor safety, use --secret-id <uuid> to explicitly specify which secret to delete.")) := by
      simp only [resolve_secret_ids, hlogin, Bool.not_true, Bool.false_eq_true,
        if_false, validate_secret_uuids, hname, if_true, horg, Option.getD_some,
        hfind', hsw]
    have hupd : update_resolve_name login list get tok name (some org) =
        .error ("MULTIPLE_SECRETS_UPDATE: Cannot update by name when multiple secrets share the same name. " ++
          (strDrop ("MULTIPLE_SECRETS: Found " ++ rest) 18 ++
            "\n\nFor safety, use --secret-id <uuid> to explicitly specify which secret to update.")) := by
      simp only [update_resolve_name, hlogin, Bool.not_true, Bool.false_eq_true,
        if_false, hfind', hsw, if_true]
    refine ⟨⟨_, hfind', hsw⟩, ⟨_, hres, ?_, ?_⟩, ⟨_, hupd, ?_, ?_⟩⟩
    · rw [startswith_append_stable _ _ _ (by decide)]; decide
    · simp +decide only [handle_delete_errcode, startswith_append_stable]
    · rw [startswith_append_stable _ _ _ (by decide)]; decide
    · simp +decide only [handle_update_errcode, startswith_append_stable]

/-- C4 (witness): the unique-match clause applied to a concrete listing. -/
theorem C4_name_resolution_witness :
    find_secret_by_name
      (fun _ => ⟨true, "", some ⟨some [⟨some "foo", some "id-1"⟩, ⟨some "bar", some "id-2"⟩]⟩⟩)
      (fun _ => ⟨true, "", none⟩) "foo" (some "o") = .ok "id-1" :=
  (C4_name_resolution (fun _ => ⟨true, "", some ()⟩) _ _ "t" "foo" "o" ""
      [⟨some "foo", some "id-1"⟩, ⟨some "bar", some "id-2"⟩] rfl (by decide) (by decide)
      (by decide) (by decide)).2.1 ⟨some "foo", some "id-1"⟩ (by decide)

/-! ### Claim C6: duplicate-key guard on create -/

theorem dup_scan_none_of_forall (get : GetFn) (pids : List String) :
    ∀ l : List String,
      (∀ sid ∈ l, ∀ d pid, (get sid).success = true → (get sid).data = some d →
        d.project_id = some pid → pids.contains pid = false) →
      dup_scan get pids l = none := by
  intro l
  induction l with
  | nil => intro _; rfl
  | cons sid rest ih =>
    intro h
    have hrest := ih fun s hs => h s (List.mem_cons_of_mem _ hs)
    cases hs : (get sid).success with
    | false => simp [dup_scan, hs, hrest]
    | true =>
      cases hd : (get sid).data with
      | none => simp [dup_scan, hs, hd, hrest]
      | some d =>
        cases hp : d.project_id with
        | none => simp [dup_scan, hs, hd, hp, hrest]
        | some pid =>
          have hc : pid ∉ pids := by
            simpa using h sid (List.mem_cons_self _ _) d pid hs hd hp
          simp [dup_scan, hs, hd, hp, hc, hrest]

theorem forall_of_dup_scan_none (get : GetFn) (pids : List String) :
    ∀ l : List String, dup_scan get pids l = none →
      ∀ sid ∈ l, ∀ d pid, (get sid).success = true → (get sid).data = some d →
        d.project_id = some pid → pids.contains pid = false := by
  intro l
  induction l with
  | nil =>
    intro _ sid hmem
    cases hmem
  | cons s rest ih =>
    intro h sid hmem d pid hs hd hp
    have htail : dup_scan get pids rest = none := by
      cases hs2 : (get s).success with
      | false => simpa [dup_scan, hs2] using h
      | true =>
        cases hd2 : (get s).data with
        | none => simpa [dup_scan, hs2, hd2] using h
        | some d2 =>
          cases hp2 : d2.project_id with
          | none => simpa [dup_scan, hs2, hd2, hp2] using h
          | some pid2 =>
            cases hc2 : pids.contains pid2 with
            | false =>
              have hc2' : pid2 ∉ pids := by simpa using hc2
              simpa [dup_scan, hs2, hd2, hp2, hc2'] using h
            | true =>
              have hc2' : pid2 ∈ pids := by simpa using hc2
              simp [dup_scan, hs2, hd2, hp2, hc2'] at h
    rcases List.mem_cons.mp hmem with rfl | hmem'
    · cases hc : pids.contains pid with
      | false => rfl
      | true =>
        exfalso
        have hc' : pid ∈ pids := by simpa using hc
        simp [dup_scan, hs, hd, hp, hc'] at h
    · exact ih htail sid hmem' d pid hs hd hp

/-- C6: without `--allow-duplicate`, `create_secret` lists the organization,
matches on the key, inspects each match\x27s project id via one `get` per
match, and fails with `DUPLICATE_SECRET` — for every possible create entry
point, so the backend create is never reached — whenever the scan finds a
match in a target project; the scan finds no match exactly when no listed
same-key secret fetches a project id among the targets; and with
`--allow-duplicate` the listing and the per-secret fetches are skipped
entirely (the result does not depend on them). -/
theorem C6_duplicate_guard (login : LoginFn) (list : ListFn) (get : GetFn)
    (tok org key value pstr dupid em : String) (note : Option String)
    (pcanon : List String) (entries : List SecretEntry)
    (hlogin : (login tok).success = true)
    (hisu : is_uuid org = true) (hpar : uuidParses org = true)
    (hp : truthy (some pstr) = true)
    (hne : (parse_project_ids pstr).isEmpty = false)
    (hval : validate_project_uuids (parse_project_ids pstr) = .ok pcanon)
    (hlist : list org = ⟨true, em, some ⟨some entries⟩⟩) :
    (check_duplicate_secret list get key org pcanon = .ok (some dupid) →
      ∀ createFn : CreateFn,
        create_secret login list get createFn tok org key value note (some pstr) false =
          .error ("DUPLICATE_SECRET: A secret with key \x27" ++ key ++
            "\x27 already exists in one or more of the specified projects (secret ID: " ++
            dupid ++ "). Use --allow-duplicate to create anyway.")) ∧
    (check_duplicate_secret list get key org pcanon = .ok none ↔
      ∀ sid ∈ matchingIds entries key, ∀ d pid, (get sid).success = true →
        (get sid).data = some d → d.project_id = some pid →
        pcanon.contains pid = false) ∧
    (∀ (list₂ : ListFn) (get₂ : GetFn) (createFn : CreateFn),
      create_secret login list get createFn tok org key value note (some pstr) true =
        create_secret login list₂ get₂ createFn tok org key value note (some pstr) true) := by
  refine ⟨?_, ?_, ?_⟩
  · intro hdup createFn
    simp only [create_secret, hlogin, Bool.not_true, Bool.false_eq_true, if_false,
      hisu, hpar, Bool.not_false, if_true, hp, Option.getD_some, hne, hval, hdup]
  · rw [check_duplicate_secret]
    simp only [hlist, Bool.not_true, Bool.false_eq_true, if_false, Option.getD_some]
    by_cases hm : matchingIds entries key = []
    · simp [hm]
    · have hm' : (matchingIds entries key).isEmpty = false := by
        cases hx : matchingIds entries key with
        | nil => exact absurd hx hm
        | cons a b => rfl
      simp only [hm', Bool.false_eq_true, if_false]
      constructor
      · intro h
        have hnone : dup_scan get pcanon (matchingIds entries key) = none := by
          cases hsc : dup_scan get pcanon (matchingIds entries key) with
          | none => rfl
          | some v => rw [hsc] at h; cases h
        exact forall_of_dup_scan_none get pcanon _ hnone
      · intro h
        rw [dup_scan_none_of_forall get pcanon _ h]
  · intro list₂ get₂ createFn
    rfl

/-- C6 (witness): the guard theorem applied at a concrete state: one existing
secret with the same key in the target project blocks the create. -/
theorem C6_duplicate_guard_witness :
    create_secret (fun _ => ⟨true, "", some ()⟩)
      (fun _ => ⟨true, "", some ⟨some [⟨some "k", some "id-9"⟩]⟩⟩)
      (fun _ => ⟨true, "", some ⟨none, some "k", some "v", none,
        some "cccccccc-cccc-cccc-cccc-cccccccccccc", none⟩⟩)
      (fun _ _ _ _ _ => ⟨true, "", none⟩)
      "t" "aaaaaaaa-aaaa-aaaa-aaaa-aaaaaaaaaaaa" "k" "v" none
      (some "cccccccc-cccc-cccc-cccc-cccccccccccc") false =
      .error ("DUPLICATE_SECRET: A secret with key \x27" ++ "k" ++
        "\x27 already exists in one or more of the specified projects (secret ID: " ++
        "id-9" ++ "). Use --allow-duplicate to create anyway.") :=
  (C6_duplicate_guard (fun _ => ⟨true, "", some ()⟩) _ _ "t"
      "aaaaaaaa-aaaa-aaaa-aaaa-aaaaaaaaaaaa" "k" "v"
      "cccccccc-cccc-cccc-cccc-cccccccccccc" "id-9" "" none
      ["cccccccc-cccc-cccc-cccc-cccccccccccc"] [⟨some "k", some "id-9"⟩]
      (by decide) (by decide) (by decide) (by decide) (by decide) (by decide)
      rfl).1 (by decide) _

/-! ### Claim C7: sparse update merging -/

/-- C7: `update_secret` fetches the current secret first and sends the
backend update exactly the supplied fields, with every omitted field (key,
value, note) replaced by the current stored value; omitted project ids fall
back to the secret\x27s current project, and when the current secret has no
project association the update fails with an `INVALID_ID` error before any
backend update call (for every update entry point) unless project ids are
supplied. -/
theorem C7_update_merge (login : LoginFn) (get : GetFn)
    (tok sid org em : String) (key value note : Option String) (d : SecretData)
    (hlogin : (login tok).success = true)
    (hsid : is_uuid sid = true)
    (horg : is_uuid org = true) (horgp : uuidParses org = true)
    (hget : get sid = ⟨true, em, some d⟩) :
    (∀ pstr pcanon, (parse_project_ids pstr).isEmpty = false →
      validate_project_uuids (parse_project_ids pstr) = .ok pcanon →
      update_secret login get recordingUpdate tok sid org key value note (some pstr) =
        .ok (encodeCall (uuidCanon org) sid
          (if key.isSome then key else d.key)
          (if value.isSome then value else d.value)
          (if note.isSome then note else d.note) pcanon)) ∧
    (truthy d.project_id = true → uuidParses (d.project_id.getD "") = true →
      update_secret login get recordingUpdate tok sid org key value note none =
        .ok (encodeCall (uuidCanon org) sid
          (if key.isSome then key else d.key)
          (if value.isSome then value else d.value)
          (if note.isSome then note else d.note)
          [uuidCanon (d.project_id.getD "")])) ∧
    (truthy d.project_id = false →
      ∀ u : UpdateFn, update_secret login get u tok sid org key value note none =
        .error "INVALID_ID: Current secret has no project_id (it may have been removed from its project). You must provide --project-ids when updating to assign it to a project.") := by
  have hgsu : get_secret_for_update get sid = .ok d := by
    simp [get_secret_for_update, hget]
  have hkm : (match key with | some k => some k | none => d.key) =
      (if key.isSome then key else d.key) := by cases key <;> rfl
  have hvm : (match value with | some v => some v | none => d.value) =
      (if value.isSome then value else d.value) := by cases value <;> rfl
  have hnm : (match note with | some n => some n | none => d.note) =
      (if note.isSome then note else d.note) := by cases note <;> rfl
  refine ⟨?_, ?_, ?_⟩
  · intro pstr pcanon hne hval
    simp only [update_secret, hlogin, Bool.not_true, Bool.false_eq_true, if_false,
      hsid, horg, horgp, Bool.not_false, if_true, hgsu, hne, hval, hkm, hvm, hnm,
      recordingUpdate]
  · intro hproj hparse
    simp only [update_secret, hlogin, Bool.not_true, Bool.false_eq_true, if_false,
      hsid, horg, horgp, Bool.not_false, if_true, hgsu, hproj, hparse, hkm, hvm, hnm,
      recordingUpdate]
  · intro hproj u
    simp only [update_secret, hlogin, Bool.not_true, Bool.false_eq_true, if_false,
      hsid, horg, horgp, Bool.not_false, if_true, hgsu, hproj]

/-- C7 (witness): the merge clause applied at a concrete state: value is
supplied, key and note fall back to the stored secret. -/
theorem C7_update_merge_witness :
    update_secret (fun _ => ⟨true, "", some ()⟩)
      (fun _ => ⟨true, "", some ⟨some "id-1", some "oldkey", some "oldval", some "oldnote",
        some "cccccccc-cccc-cccc-cccc-cccccccccccc", none⟩⟩)
      recordingUpdate "t" "aaaaaaaa-aaaa-aaaa-aaaa-aaaaaaaaaaaa"
      "BBBBBBBB-bbbb-bbbb-bbbb-bbbbbbbbbbbb" none (some "newval") none
      (some "dddddddd-dddd-dddd-dddd-dddddddddddd") =
      .ok ("bbbbbbbb-bbbb-bbbb-bbbb-bbbbbbbbbbbb|aaaaaaaa-aaaa-aaaa-aaaa-aaaaaaaaaaaa|oldkey|newval|oldnote|dddddddd-dddd-dddd-dddd-dddddddddddd") :=
  ((C7_update_merge (fun _ => ⟨true, "", some ()⟩) _ "t"
      "aaaaaaaa-aaaa-aaaa-aaaa-aaaaaaaaaaaa" "BBBBBBBB-bbbb-bbbb-bbbb-bbbbbbbbbbbb" ""
      none (some "newval") none
      ⟨some "id-1", some "oldkey", some "oldval", some "oldnote",
        some "cccccccc-cccc-cccc-cccc-cccccccccccc", none⟩
      (by decide) (by decide) (by decide) (by decide) rfl).1
    "dddddddd-dddd-dddd-dddd-dddddddddddd" ["dddddddd-dddd-dddd-dddd-dddddddddddd"]
    (by decide) (by decide)).trans (by decide)

/-! ### Claim C5: confirmation guards before destructive calls -/

/-- C5 (delete part): whenever `--force` is absent and either stdin is not a
terminal or the prompt answer is not `y`/`yes`, `handle_delete` exits with
code 2 and the result is the same for every delete entry point, so the
backend delete is never performed (given that identifier resolution itself
succeeds). -/
theorem C5_delete_guard (a : DeleteArgs) (env : Env) (stdin : StdinData)
    (login : LoginFn) (list : ListFn) (get : GetFn) (l : List String)
    (hforce : a.force = false)
    (hres : resolve_secret_ids login list get
      ((resolve_delete_config a env).access_token.getD "")
      (resolve_delete_config a env).secret_ids
      (resolve_delete_config a env).secret_name
      (resolve_delete_config a env).org_id = .ok l)
    (hstdin : stdin.isatty = false ∨
      (∀ resp, stdin.input = some resp →
        (pyLower (pyStrip resp) == "y" || pyLower (pyStrip resp) == "yes") = false)) :
    ∀ del : DeleteFn, handle_delete a env stdin login list get del = 2 := by
  intro del
  unfold handle_delete
  rcases Bool.eq_false_or_eq_true (a.secret_id.isEmpty && !truthy a.secret_name) with h1 | h1
  · rw [if_pos h1]
  · rw [if_neg (by rw [h1]; exact Bool.false_ne_true)]
    dsimp only
    rcases Bool.eq_false_or_eq_true
        (truthy (resolve_delete_config a env).access_token) with h2 | h2
    case inr => simp [h2]
    rcases Bool.eq_false_or_eq_true
        (truthy (resolve_delete_config a env).secret_name &&
          !truthy (resolve_delete_config a env).org_id) with h3 | h3
    case inl => simp [h2, h3]
    rcases Bool.eq_false_or_eq_true
        ((resolve_delete_config a env).secret_ids.isEmpty &&
          !truthy (resolve_delete_config a env).secret_name) with h4 | h4
    case inl => simp [h2, h3, h4]
    simp only [h2, h3, h4, Bool.not_true, Bool.false_eq_true, if_false, if_true,
      Bool.not_false, hres]
    cases l with
    | nil => simp
    | cons x xs =>
      simp only [List.isEmpty_cons, Bool.false_eq_true, if_false, hforce,
        Bool.not_false, if_true]
      rcases hstdin with htty | hresp
      · simp [htty]
      · cases hatty : stdin.isatty with
        | false => simp
        | true =>
          cases hin : stdin.input with
          | none => simp
          | some resp => simp [hresp resp hin]

/-- C5 (update part): a project-less update (current secret fetches with no
project association) without `--force` exits with code 2 — before the backend
update, for every update entry point — when stdin is not a terminal or the
prompt answer is not `y`/`yes`. -/
theorem C5_update_guard (a : UpdateArgs) (env : Env) (stdin : StdinData)
    (login : LoginFn) (list : ListFn) (get : GetFn) (sid em : String) (d : SecretData)
    (hforce : a.force = false)
    (hlogin : ∀ t, (login t).success = true)
    (hfind : truthy (resolve_update_config a env).secret_name = true →
      find_secret_by_name list get
        ((resolve_update_config a env).secret_name.getD "")
        (resolve_update_config a env).org_id = .ok sid)
    (hid : truthy (resolve_update_config a env).secret_name = false →
      (resolve_update_config a env).secret_id = some sid)
    (hget : get sid = ⟨true, em, some d⟩)
    (hproj : truthy d.project_id = false)
    (hstdin : stdin.isatty = false ∨
      (∀ resp, stdin.input = some resp →
        (pyLower (pyStrip resp) == "y" || pyLower (pyStrip resp) == "yes") = false)) :
    ∀ u : UpdateFn, handle_update a env stdin login list get u = 2 := by
  intro u
  have hgsu : get_secret_for_update get sid = .ok d := by
    simp [get_secret_for_update, hget]
  have hgate : ∀ rp : Option String,
      (if !truthy rp then some 2
        else if !a.force then
          if stdin.isatty then
            match stdin.input with
            | none => some 2
            | some resp =>
              if pyLower (pyStrip resp) == "y" || pyLower (pyStrip resp) == "yes" then
                none
              else some 2
          else some 2
        else none) = some 2 := by
    intro rp
    rcases Bool.eq_false_or_eq_true (truthy rp) with hrp | hrp
    case inr => simp [hrp]
    rw [if_neg (by simp [hrp]), if_pos (by simp [hforce])]
    rcases hstdin with htty | hresp
    · simp [htty]
    · cases hatty : stdin.isatty with
      | false => simp
      | true =>
        simp only [if_true]
        cases hin : stdin.input with
        | none => rfl
        | some resp => simp [hresp resp hin]
  unfold handle_update
  rcases Bool.eq_false_or_eq_true (truthy a.secret_id && truthy a.secret_name) with h1 | h1
  · rw [if_pos h1]
  · rw [if_neg (by rw [h1]; exact Bool.false_ne_true)]
    rcases Bool.eq_false_or_eq_true (!truthy a.secret_id && !truthy a.secret_name) with h2 | h2
    · rw [if_pos h2]
    · rw [if_neg (by rw [h2]; exact Bool.false_ne_true)]
      dsimp only
      rcases Bool.eq_false_or_eq_true
          (truthy (resolve_update_config a env).access_token) with h3 | h3
      case inr => simp [h3]
      rcases Bool.eq_false_or_eq_true
          (truthy (resolve_update_config a env).secret_name &&
            !truthy (resolve_update_config a env).org_id) with h4 | h4
      case inl => simp [h3, h4]
      rcases Bool.eq_false_or_eq_true
          (!truthy (resolve_update_config a env).key &&
            !truthy (resolve_update_config a env).value &&
            !truthy (resolve_update_config a env).note &&
            !truthy (resolve_update_config a env).project_ids) with h5 | h5
      case inl => simp [h3, h4, h5]
      simp only [h3, h4, h5, Bool.not_true, Bool.false_eq_true, if_false, if_true,
        Bool.not_false]
      rcases Bool.eq_false_or_eq_true
          (truthy (resolve_update_config a env).secret_name) with hsn | hsn
      · -- name path: the org id must be truthy since check h4 passed
        have horg2 : truthy (resolve_update_config a env).org_id = true := by
          rcases Bool.eq_false_or_eq_true
              (truthy (resolve_update_config a env).org_id) with ho | ho
          · exact ho
          · rw [hsn, ho] at h4; cases h4
        rcases Bool.eq_false_or_eq_true (truthy (some sid)) with hst | hst
        · simp only [handle_update_body, hsn, if_true, horg2, Bool.not_true,
            Bool.false_eq_true, if_false, update_resolve_name, hlogin,
            Bool.not_false, hfind hsn, hst, hgsu, hgate, Option.getD_some, hproj]
        · simp only [handle_update_body, hsn, if_true, horg2, Bool.not_true,
            Bool.false_eq_true, if_false, update_resolve_name, hlogin,
            Bool.not_false, hfind hsn, hst, if_true]
      · rcases Bool.eq_false_or_eq_true (truthy (some sid)) with hst | hst
        · rcases Bool.eq_false_or_eq_true
              (truthy (resolve_update_config a env).org_id) with ho | ho
          · simp only [handle_update_body, hsn, Bool.false_eq_true, if_false,
              hid hsn, hst, Bool.not_true, hlogin, Bool.not_false, if_true, ho,
              hgsu, hproj, hgate, Option.getD_some]
          · rcases Bool.eq_false_or_eq_true (truthy d.organization_id) with hdo | hdo
            · simp only [handle_update_body, hsn, Bool.false_eq_true, if_false,
                hid hsn, hst, Bool.not_true, hlogin, Bool.not_false, if_true, ho,
                hgsu, hdo, hproj, hgate, Option.getD_some]
            · simp only [handle_update_body, hsn, Bool.false_eq_true, if_false,
                hid hsn, hst, Bool.not_true, hlogin, Bool.not_false, if_true, ho,
                hgsu, hdo, Option.getD_some]
        · simp only [handle_update_body, hsn, Bool.false_eq_true, if_false,
            hid hsn, hst, Bool.not_false, if_true]

/-- C5: deletion and project-less updates require either `--force` or an
interactive `y`/`yes` confirmation: with neither (stdin not a terminal, or a
prompt answer other than `y`/`yes`), `handle_delete` and `handle_update`
return exit code 2, and the result is independent of the destructive SDK
entry point, which is therefore never consulted. -/
theorem C5_confirmation_guard :
    (∀ (a : DeleteArgs) (env : Env) (stdin : StdinData) (login : LoginFn)
        (list : ListFn) (get : GetFn) (l : List String),
      a.force = false →
      resolve_secret_ids login list get
        ((resolve_delete_config a env).access_token.getD "")
        (resolve_delete_config a env).secret_ids
        (resolve_delete_config a env).secret_name
        (resolve_delete_config a env).org_id = .ok l →
      (stdin.isatty = false ∨
        (∀ resp, stdin.input = some resp →
          (pyLower (pyStrip resp) == "y" || pyLower (pyStrip resp) == "yes") = false)) →
      ∀ del : DeleteFn, handle_delete a env stdin login list get del = 2) ∧
    (∀ (a : UpdateArgs) (env : Env) (stdin : StdinData) (login : LoginFn)
        (list : ListFn) (get : GetFn) (sid em : String) (d : SecretData),
      a.force = false →
      (∀ t, (login t).success = true) →
      (truthy (resolve_update_config a env).secret_name = true →
        find_secret_by_name list get
          ((resolve_update_config a env).secret_name.getD "")
          (resolve_update_config a env).org_id = .ok sid) →
      (truthy (resolve_update_config a env).secret_name = false →
        (resolve_update_config a env).secret_id = some sid) →
      get sid = ⟨true, em, some d⟩ →
      truthy d.project_id = false →
      (stdin.isatty = false ∨
        (∀ resp, stdin.input = some resp →
          (pyLower (pyStrip resp) == "y" || pyLower (pyStrip resp) == "yes") = false)) →
      ∀ u : UpdateFn, handle_update a env stdin login list get u = 2) :=
  ⟨fun a env stdin login list get l hf hr hs =>
      C5_delete_guard a env stdin login list get l hf hr hs,
    fun a env stdin login list get sid em d hf hl hfind hid hget hproj hs =>
      C5_update_guard a env stdin login list get sid em d hf hl hfind hid hget hproj hs⟩

/-- C5 (witness): the guard applied at concrete non-interactive inputs: both
handlers return 2, with backends that would otherwise succeed. -/
theorem C5_confirmation_guard_witness :
    handle_delete
      { secret_id := ["aaaaaaaa-aaaa-aaaa-aaaa-aaaaaaaaaaaa"], access_token := some "t" }
      {} ⟨false, "", none⟩ (fun _ => ⟨true, "", some ()⟩)
      (fun _ => ⟨true, "", some ⟨some []⟩⟩)
      (fun _ => ⟨true, "", some ⟨none, none, none, none, none, none⟩⟩)
      (fun _ => ⟨true, "", some ()⟩) = 2 ∧
    handle_update
      { secret_id := some "aaaaaaaa-aaaa-aaaa-aaaa-aaaaaaaaaaaa",
        access_token := some "t", org_id := some "bbbbbbbb-bbbb-bbbb-bbbb-bbbbbbbbbbbb",
        value := some "nv", project_ids := some "cccccccc-cccc-cccc-cccc-cccccccccccc" }
      {} ⟨false, "", none⟩ (fun _ => ⟨true, "", some ()⟩)
      (fun _ => ⟨true, "", some ⟨some []⟩⟩)
      (fun _ => ⟨true, "", some ⟨some "id", some "k", some "v", none, none,
        some "bbbbbbbb-bbbb-bbbb-bbbb-bbbbbbbbbbbb"⟩⟩)
      (fun _ _ _ _ _ _ => ⟨true, "", some ⟨some "id", none, none, none, none, none⟩⟩) = 2 :=
  ⟨C5_confirmation_guard.1 _ {} ⟨false, "", none⟩ _ _ _
      ["aaaaaaaa-aaaa-aaaa-aaaa-aaaaaaaaaaaa"] rfl (by decide) (Or.inl rfl) _,
    C5_confirmation_guard.2 _ {} ⟨false, "", none⟩ _ _ _
      "aaaaaaaa-aaaa-aaaa-aaaa-aaaaaaaaaaaa" ""
      ⟨some "id", some "k", some "v", none, none,
        some "bbbbbbbb-bbbb-bbbb-bbbb-bbbbbbbbbbbb"⟩ rfl (fun _ => rfl)
      (by intro h; cases h) (fun _ => by decide) rfl (by decide) (Or.inl rfl) _⟩

/-! ### Claim C1: uniform error-to-exit-code mapping -/

theorem handle_get_errcode_spec (d : String) :
    handle_get_errcode ("AUTH_ERROR:" ++ d) = 3 ∧
    handle_get_errcode ("NOT_FOUND_OR_ERROR:" ++ d) = 4 ∧
    handle_get_errcode ("NOT_FOUND:" ++ d) = 4 ∧
    handle_get_errcode ("ORG_ID_REQUIRED:" ++ d) = 2 ∧
    handle_get_errcode ("INVALID_ID:" ++ d) = 2 ∧
    handle_get_errcode ("LIST_ERROR:" ++ d) = 5 ∧
    handle_get_errcode ("MULTIPLE_SECRETS:" ++ d) = 2 ∧
    handle_get_errcode ("SDK_ERROR:" ++ d) = 5 := by
  refine ⟨?_, ?_, ?_, ?_, ?_, ?_, ?_, ?_⟩ <;>
    simp +decide only [handle_get_errcode, startswith_append_stable]

theorem handle_create_errcode_spec (d : String) :
    handle_create_errcode ("AUTH_ERROR:" ++ d) = 3 ∧
    handle_create_errcode ("PROJECT_ID_REQUIRED:" ++ d) = 2 ∧
    handle_create_errcode ("DUPLICATE_SECRET:" ++ d) = 2 ∧
    handle_create_errcode ("LIST_ERROR:" ++ d) = 5 ∧
    handle_create_errcode ("INVALID_ID:" ++ d) = 2 ∧
    handle_create_errcode ("NOT_FOUND:" ++ d) = 4 ∧
    handle_create_errcode ("SDK_ERROR:" ++ d) = 5 := by
  refine ⟨?_, ?_, ?_, ?_, ?_, ?_, ?_⟩ <;>
    simp +decide only [handle_create_errcode, startswith_append_stable]

theorem handle_update_errcode_spec (d : String) :
    handle_update_errcode ("AUTH_ERROR:" ++ d) = 3 ∧
    handle_update_errcode ("ORG_ID_REQUIRED:" ++ d) = 2 ∧
    handle_update_errcode ("INVALID_ID:" ++ d) = 2 ∧
    handle_update_errcode ("NOT_FOUND:" ++ d) = 4 ∧
    handle_update_errcode ("LIST_ERROR:" ++ d) = 5 ∧
    handle_update_errcode ("MULTIPLE_SECRETS:" ++ d) = 2 ∧
    handle_update_errcode ("MULTIPLE_SECRETS_UPDATE:" ++ d) = 2 ∧
    handle_update_errcode ("SDK_ERROR:" ++ d) = 5 := by
  refine ⟨?_, ?_, ?_, ?_, ?_, ?_, ?_, ?_⟩ <;>
    simp +decide only [handle_update_errcode, startswith_append_stable]

theorem handle_delete_errcode_spec (d : String) :
    handle_delete_errcode ("AUTH_ERROR:" ++ d) = 3 ∧
    handle_delete_errcode ("ORG_ID_REQUIRED:" ++ d) = 2 ∧
    handle_delete_errcode ("INVALID_ID:" ++ d) = 2 ∧
    handle_delete_errcode ("NOT_FOUND:" ++ d) = 4 ∧
    handle_delete_errcode ("LIST_ERROR:" ++ d) = 5 ∧
    handle_delete_errcode ("MULTIPLE_SECRETS:" ++ d) = 2 ∧
    handle_delete_errcode ("MULTIPLE_SECRETS_DELETE:" ++ d) = 2 ∧
    handle_delete_errcode ("SDK_ERROR:" ++ d) = 5 := by
  refine ⟨?_, ?_, ?_, ?_, ?_, ?_, ?_, ?_⟩ <;>
    simp +decide only [handle_delete_errcode, startswith_append_stable]

theorem handle_list_errcode_spec (d : String) :
    handle_list_errcode ("AUTH_ERROR:" ++ d) = 3 ∧
    handle_list_errcode ("LIST_ERROR:" ++ d) = 5 ∧
    handle_list_errcode ("INVALID_ID:" ++ d) = 2 ∧
    handle_list_errcode ("SDK_ERROR:" ++ d) = 5 := by
  refine ⟨?_, ?_, ?_, ?_⟩ <;>
    simp +decide only [handle_list_errcode, startswith_append_stable]

theorem handle_get_errcode_uncat (msg : String)
    (h1 : startswith msg "AUTH_ERROR:" = false)
    (h2 : startswith msg "NOT_FOUND_OR_ERROR:" = false)
    (h3 : startswith msg "NOT_FOUND:" = false)
    (h4 : startswith msg "ORG_ID_REQUIRED:" = false)
    (h5 : startswith msg "INVALID_ID:" = false)
    (h6 : startswith msg "LIST_ERROR:" = false)
    (h7 : startswith msg "MULTIPLE_SECRETS:" = false)
    (h8 : startswith msg "SDK_ERROR:" = false) :
    handle_get_errcode msg = 5 := by
  simp [handle_get_errcode, h1, h2, h3, h4, h5, h6, h7, h8]

theorem handle_create_errcode_uncat (msg : String)
    (h1 : startswith msg "AUTH_ERROR:" = false)
    (h2 : startswith msg "PROJECT_ID_REQUIRED:" = false)
    (h3 : startswith msg "DUPLICATE_SECRET:" = false)
    (h4 : startswith msg "LIST_ERROR:" = false)
    (h5 : startswith msg "INVALID_ID:" = false)
    (h6 : startswith msg "NOT_FOUND:" = false)
    (h7 : startswith msg "SDK_ERROR:" = false) :
    handle_create_errcode msg = 5 := by
  simp [handle_create_errcode, h1, h2, h3, h4, h5, h6, h7]

theorem handle_update_errcode_uncat (msg : String)
    (h1 : startswith msg "AUTH_ERROR:" = false)
    (h2 : startswith msg "ORG_ID_REQUIRED:" = false)
    (h3 : startswith msg "INVALID_ID:" = false)
    (h4 : startswith msg "NOT_FOUND:" = false)
    (h5 : startswith msg "LIST_ERROR:" = false)
    (h6 : startswith msg "MULTIPLE_SECRETS:" = false)
    (h7 : startswith msg "MULTIPLE_SECRETS_UPDATE:" = false)
    (h8 : startswith msg "SDK_ERROR:" = false) :
    handle_update_errcode msg = 5 := by
  simp [handle_update_errcode, h1, h2, h3, h4, h5, h6, h7, h8]

theorem handle_delete_errcode_uncat (msg : String)
    (h1 : startswith msg "AUTH_ERROR:" = false)
    (h2 : startswith msg "ORG_ID_REQUIRED:" = false)
    (h3 : startswith msg "INVALID_ID:" = false)
    (h4 : startswith msg "NOT_FOUND:" = false)
    (h5 : startswith msg "LIST_ERROR:" = false)
    (h6 : startswith msg "MULTIPLE_SECRETS:" = false)
    (h7 : startswith msg "MULTIPLE_SECRETS_DELETE:" = false)
    (h8 : startswith msg "SDK_ERROR:" = false) :
    handle_delete_errcode msg = 5 := by
  simp [handle_delete_errcode, h1, h2, h3, h4, h5, h6, h7, h8]

theorem handle_list_errcode_uncat (msg : String)
    (h1 : startswith msg "AUTH_ERROR:" = false)
    (h2 : startswith msg "LIST_ERROR:" = false)
    (h3 : startswith msg "INVALID_ID:" = false)
    (h4 : startswith msg "SDK_ERROR:" = false) :
    handle_list_errcode msg = 5 := by
  simp [handle_list_errcode, h1, h2, h3, h4]

theorem handle_get_success (a : GetArgs) (env : Env) (login : LoginFn)
    (list : ListFn) (get : GetFn) (v : String)
    (h1 : (truthy a.secret_id && truthy a.secret_name) = false)
    (h2 : truthy (resolve_config a env).access_token = true)
    (h3 : truthy (resolve_config a env).secret_identifier = true)
    (h4 : get_secret_value login list get ((resolve_config a env).access_token.getD "")
      ((resolve_config a env).secret_identifier.getD "")
      (resolve_config a env).identifier_type (resolve_config a env).org_id = .ok v) :
    handle_get a env login list get = 0 := by
  simp only [handle_get, h1, Bool.false_eq_true, if_false, h2, h3, Bool.not_true,
    Bool.or_self, h4]

theorem handle_create_success (a : CreateArgs) (env : Env) (stdin : StdinData)
    (login : LoginFn) (list : ListFn) (get : GetFn) (create : CreateFn) (sv v : String)
    (h1 : truthy (resolve_create_config a env).access_token = true)
    (h2 : truthy (resolve_create_config a env).org_id = true)
    (h3 : truthy (resolve_create_config a env).key = true)
    (h4 : truthy (resolve_create_config a env).project_ids = true)
    (h5 : (if truthy (resolve_create_config a env).value then
        Except.ok ((resolve_create_config a env).value.getD "")
      else read_value_from_stdin stdin) = .ok sv)
    (h6 : create_secret login list get create
      ((resolve_create_config a env).access_token.getD "")
      ((resolve_create_config a env).org_id.getD "")
      ((resolve_create_config a env).key.getD "") sv
      (resolve_create_config a env).note (resolve_create_config a env).project_ids
      a.allow_duplicate = .ok v) :
    handle_create a env stdin login list get create = 0 := by
  simp only [handle_create, h1, h2, h3, h4, Bool.not_true, Bool.false_eq_true,
    if_false, h5, h6]

theorem handle_update_success (a : UpdateArgs) (env : Env) (stdin : StdinData)
    (login : LoginFn) (list : ListFn) (get : GetFn) (u : UpdateFn) (s : String)
    (h1 : (truthy a.secret_id && truthy a.secret_name) = false)
    (h2 : (!truthy a.secret_id && !truthy a.secret_name) = false)
    (h3 : truthy (resolve_update_config a env).access_token = true)
    (h4 : (truthy (resolve_update_config a env).secret_name &&
      !truthy (resolve_update_config a env).org_id) = false)
    (h5 : (!truthy (resolve_update_config a env).key &&
      !truthy (resolve_update_config a env).value &&
      !truthy (resolve_update_config a env).note &&
      !truthy (resolve_update_config a env).project_ids) = false)
    (h6 : handle_update_body (resolve_update_config a env) a.force stdin
      login list get u = .done s) :
    handle_update a env stdin login list get u = 0 := by
  simp only [handle_update, h1, h2, Bool.false_eq_true, if_false, h3, h4, h5,
    Bool.not_true, h6]

theorem handle_delete_success (a : DeleteArgs) (env : Env) (stdin : StdinData)
    (login : LoginFn) (list : ListFn) (get : GetFn) (del : DeleteFn)
    (l dl : List String)
    (h0 : (a.secret_id.isEmpty && !truthy a.secret_name) = false)
    (h1 : truthy (resolve_delete_config a env).access_token = true)
    (h2 : (truthy (resolve_delete_config a env).secret_name &&
      !truthy (resolve_delete_config a env).org_id) = false)
    (h3 : ((resolve_delete_config a env).secret_ids.isEmpty &&
      !truthy (resolve_delete_config a env).secret_name) = false)
    (h4 : resolve_secret_ids login list get
      ((resolve_delete_config a env).access_token.getD "")
      (resolve_delete_config a env).secret_ids
      (resolve_delete_config a env).secret_name
      (resolve_delete_config a env).org_id = .ok l)
    (h5 : l.isEmpty = false)
    (h6 : a.force = true)
    (h7 : delete_secret login get del
      ((resolve_delete_config a env).access_token.getD "") l = .ok dl) :
    handle_delete a env stdin login list get del = 0 := by
  simp only [handle_delete, h0, Bool.false_eq_true, if_false, h1, h2, h3,
    Bool.not_true, h4, h5, h6, Bool.not_false, h7]

theorem handle_list_success (a : ListArgs) (env : Env) (login : LoginFn)
    (list : ListFn) (get : GetFn) (lst : List SecretInfo)
    (h1 : truthy (resolve_list_config a env).access_token = true)
    (h2 : truthy (resolve_list_config a env).org_id = true)
    (h3 : list_secrets login list get
      ((resolve_list_config a env).access_token.getD "")
      ((resolve_list_config a env).org_id.getD "")
      (resolve_list_config a env).project_id
      (resolve_list_config a env).key_pattern = .ok lst) :
    handle_list a env login list get = 0 := by
  simp only [handle_list, h1, h2, Bool.not_true, Bool.false_eq_true, if_false, h3]

theorem handle_create_value_required (a : CreateArgs) (env : Env) (stdin : StdinData)
    (login : LoginFn) (list : ListFn) (get : GetFn) (create : CreateFn)
    (h1 : truthy (resolve_create_config a env).access_token = true)
    (h2 : truthy (resolve_create_config a env).org_id = true)
    (h3 : truthy (resolve_create_config a env).key = true)
    (h4 : truthy (resolve_create_config a env).project_ids = true)
    (h5 : truthy (resolve_create_config a env).value = false)
    (h6 : stdin.isatty = true) :
    handle_create a env stdin login list get create = 2 := by
  simp only [handle_create, h1, h2, h3, h4, Bool.not_true, Bool.false_eq_true,
    if_false, h5, read_value_from_stdin, h6, if_true]
  decide

/-- C1: all five handlers map error categories to exit codes by one and the
same mapping — `AUTH_ERROR` to 3; `NOT_FOUND` (and `NOT_FOUND_OR_ERROR`) to
4; `ORG_ID_REQUIRED`, `INVALID_ID`, `MULTIPLE_SECRETS` (including the
`_DELETE`/`_UPDATE` variants), `DUPLICATE_SECRET`, `PROJECT_ID_REQUIRED` and
`VALUE_REQUIRED` to 2; `LIST_ERROR`, `SDK_ERROR` and every uncategorized
error to 5 — and return 0 when the underlying operation succeeds. -/
theorem C1_exit_code_mapping :
    (∀ d : String,
      handle_get_errcode ("AUTH_ERROR:" ++ d) = 3 ∧
      handle_get_errcode ("NOT_FOUND_OR_ERROR:" ++ d) = 4 ∧
      handle_get_errcode ("NOT_FOUND:" ++ d) = 4 ∧
      handle_get_errcode ("ORG_ID_REQUIRED:" ++ d) = 2 ∧
      handle_get_errcode ("INVALID_ID:" ++ d) = 2 ∧
      handle_get_errcode ("LIST_ERROR:" ++ d) = 5 ∧
      handle_get_errcode ("MULTIPLE_SECRETS:" ++ d) = 2 ∧
      handle_get_errcode ("SDK_ERROR:" ++ d) = 5) ∧
    (∀ d : String,
      handle_create_errcode ("AUTH_ERROR:" ++ d) = 3 ∧
      handle_create_errcode ("PROJECT_ID_REQUIRED:" ++ d) = 2 ∧
      handle_create_errcode ("DUPLICATE_SECRET:" ++ d) = 2 ∧
      handle_create_errcode ("LIST_ERROR:" ++ d) = 5 ∧
      handle_create_errcode ("INVALID_ID:" ++ d) = 2 ∧
      handle_create_errcode ("NOT_FOUND:" ++ d) = 4 ∧
      handle_create_errcode ("SDK_ERROR:" ++ d) = 5) ∧
    (∀ d : String,
      handle_update_errcode ("AUTH_ERROR:" ++ d) = 3 ∧
      handle_update_errcode ("ORG_ID_REQUIRED:" ++ d) = 2 ∧
      handle_update_errcode ("INVALID_ID:" ++ d) = 2 ∧
      handle_update_errcode ("NOT_FOUND:" ++ d) = 4 ∧
      handle_update_errcode ("LIST_ERROR:" ++ d) = 5 ∧
      handle_update_errcode ("MULTIPLE_SECRETS:" ++ d) = 2 ∧
      handle_update_errcode ("MULTIPLE_SECRETS_UPDATE:" ++ d) = 2 ∧
      handle_update_errcode ("SDK_ERROR:" ++ d) = 5) ∧
    (∀ d : String,
      handle_delete_errcode ("AUTH_ERROR:" ++ d) = 3 ∧
      handle_delete_errcode ("ORG_ID_REQUIRED:" ++ d) = 2 ∧
      handle_delete_errcode ("INVALID_ID:" ++ d) = 2 ∧
      handle_delete_errcode ("NOT_FOUND:" ++ d) = 4 ∧
      handle_delete_errcode ("LIST_ERROR:" ++ d) = 5 ∧
      handle_delete_errcode ("MULTIPLE_SECRETS:" ++ d) = 2 ∧
      handle_delete_errcode ("MULTIPLE_SECRETS_DELETE:" ++ d) = 2 ∧
      handle_delete_errcode ("SDK_ERROR:" ++ d) = 5) ∧
    (∀ d : String,
      handle_list_errcode ("AUTH_ERROR:" ++ d) = 3 ∧
      handle_list_errcode ("LIST_ERROR:" ++ d) = 5 ∧
      handle_list_errcode ("INVALID_ID:" ++ d) = 2 ∧
      handle_list_errcode ("SDK_ERROR:" ++ d) = 5) ∧
    (∀ msg : String,
      startswith msg "AUTH_ERROR:" = false →
      startswith msg "NOT_FOUND_OR_ERROR:" = false →
      startswith msg "NOT_FOUND:" = false →
      startswith msg "ORG_ID_REQUIRED:" = false →
      startswith msg "INVALID_ID:" = false →
      startswith msg "LIST_ERROR:" = false →
      startswith msg "MULTIPLE_SECRETS:" = false →
      startswith msg "SDK_ERROR:" = false →
      handle_get_errcode msg = 5) ∧
    (∀ msg : String,
      startswith msg "AUTH_ERROR:" = false →
      startswith msg "PROJECT_ID_REQUIRED:" = false →
      startswith msg "DUPLICATE_SECRET:" = false →
      startswith msg "LIST_ERROR:" = false →
      startswith msg "INVALID_ID:" = false →
      startswith msg "NOT_FOUND:" = false →
      startswith msg "SDK_ERROR:" = false →
      handle_create_errcode msg = 5) ∧
    (∀ msg : String,
      startswith msg "AUTH_ERROR:" = false →
      startswith msg "ORG_ID_REQUIRED:" = false →
      startswith msg "INVALID_ID:" = false →
      startswith msg "NOT_FOUND:" = false →
      startswith msg "LIST_ERROR:" = false →
      startswith msg "MULTIPLE_SECRETS:" = false →
      startswith msg "MULTIPLE_SECRETS_UPDATE:" = false →
      startswith msg "SDK_ERROR:" = false →
      handle_update_errcode msg = 5) ∧
    (∀ msg : String,
      startswith msg "AUTH_ERROR:" = false →
      startswith msg "ORG_ID_REQUIRED:" = false →
      startswith msg "INVALID_ID:" = false →
      startswith msg "NOT_FOUND:" = false →
      startswith msg "LIST_ERROR:" = false →
      startswith msg "MULTIPLE_SECRETS:" = false →
      startswith msg "MULTIPLE_SECRETS_DELETE:" = false →
      startswith msg "SDK_ERROR:" = false →
      handle_delete_errcode msg = 5) ∧
    (∀ msg : String,
      startswith msg "AUTH_ERROR:" = false →
      startswith msg "LIST_ERROR:" = false →
      startswith msg "INVALID_ID:" = false →
      startswith msg "SDK_ERROR:" = false →
      handle_list_errcode msg = 5) ∧
    (∀ (a : GetArgs) (env : Env) (login : LoginFn) (list : ListFn) (get : GetFn)
        (v : String),
      (truthy a.secret_id && truthy a.secret_name) = false →
      truthy (resolve_config a env).access_token = true →
      truthy (resolve_config a env).secret_identifier = true →
      get_secret_value login list get ((resolve_config a env).access_token.getD "")
        ((resolve_config a env).secret_identifier.getD "")
        (resolve_config a env).identifier_type (resolve_config a env).org_id = .ok v →
      handle_get a env login list get = 0) ∧
    (∀ (a : CreateArgs) (env : Env) (stdin : StdinData) (login : LoginFn)
        (list : ListFn) (get : GetFn) (create : CreateFn) (sv v : String),
      truthy (resolve_create_config a env).access_token = true →
      truthy (resolve_create_config a env).org_id = true →
      truthy (resolve_create_config a env).key = true →
      truthy (resolve_create_config a env).project_ids = true →
      (if truthy (resolve_create_config a env).value then
        Except.ok ((resolve_create_config a env).value.getD "")
      else read_value_from_stdin stdin) = .ok sv →
      create_secret login list get create
        ((resolve_create_config a env).access_token.getD "")
        ((resolve_create_config a env).org_id.getD "")
        ((resolve_create_config a env).key.getD "") sv
        (resolve_create_config a env).note (resolve_create_config a env).project_ids
        a.allow_duplicate = .ok v →
      handle_create a env stdin login list get create = 0) ∧
    (∀ (a : UpdateArgs) (env : Env) (stdin : StdinData) (login : LoginFn)
        (list : ListFn) (get : GetFn) (u : UpdateFn) (s : String),
      (truthy a.secret_id && truthy a.secret_name) = false →
      (!truthy a.secret_id && !truthy a.secret_name) = false →
      truthy (resolve_update_config a env).access_token = true →
      (truthy (resolve_update_config a env).secret_name &&
        !truthy (resolve_update_config a env).org_id) = false →
      (!truthy (resolve_update_config a env).key &&
        !truthy (resolve_update_config a env).value &&
        !truthy (resolve_update_config a env).note &&
        !truthy (resolve_update_config a env).project_ids) = false →
      handle_update_body (resolve_update_config a env) a.force stdin
        login list get u = .done s →
      handle_update a env stdin login list get u = 0) ∧
    (∀ (a : DeleteArgs) (env : Env) (stdin : StdinData) (login : LoginFn)
        (list : ListFn) (get : GetFn) (del : DeleteFn) (l dl : List String),
      (a.secret_id.isEmpty && !truthy a.secret_name) = false →
      truthy (resolve_delete_config a env).access_token = true →
      (truthy (resolve_delete_config a env).secret_name &&
        !truthy (resolve_delete_config a env).org_id) = false →
      ((resolve_delete_config a env).secret_ids.isEmpty &&
        !truthy (resolve_delete_config a env).secret_name) = false →
      resolve_secret_ids login list get
        ((resolve_delete_config a env).access_token.getD "")
        (resolve_delete_config a env).secret_ids
        (resolve_delete_config a env).secret_name
        (resolve_delete_config a env).org_id = .ok l →
      l.isEmpty = false →
      a.force = true →
      delete_secret login get del
        ((resolve_delete_config a env).access_token.getD "") l = .ok dl →
      handle_delete a env stdin login list get del = 0) ∧
    (∀ (a : ListArgs) (env : Env) (login : LoginFn) (list : ListFn) (get : GetFn)
        (lst : List SecretInfo),
      truthy (resolve_list_config a env).access_token = true →
      truthy (resolve_list_config a env).org_id = true →
      list_secrets login list get
        ((resolve_list_config a env).access_token.getD "")
        ((resolve_list_config a env).org_id.getD "")
        (resolve_list_config a env).project_id
        (resolve_list_config a env).key_pattern = .ok lst →
      handle_list a env login list get = 0) ∧
    (∀ (a : CreateArgs) (env : Env) (stdin : StdinData) (login : LoginFn)
        (list : ListFn) (get : GetFn) (create : CreateFn),
      truthy (resolve_create_config a env).access_token = true →
      truthy (resolve_create_config a env).org_id = true →
      truthy (resolve_create_config a env).key = true →
      truthy (resolve_create_config a env).project_ids = true →
      truthy (resolve_create_config a env).value = false →
      stdin.isatty = true →
      handle_create a env stdin login list get create = 2) :=
  ⟨handle_get_errcode_spec, handle_create_errcode_spec, handle_update_errcode_spec,
    handle_delete_errcode_spec, handle_list_errcode_spec,
    handle_get_errcode_uncat, handle_create_errcode_uncat, handle_update_errcode_uncat,
    handle_delete_errcode_uncat, handle_list_errcode_uncat,
    handle_get_success, handle_create_success, handle_update_success,
    handle_delete_success, handle_list_success, handle_create_value_required⟩

/-- C1 (witness): the mapping applied at concrete inputs — an uncategorized
message maps to 5 in all five handlers, each handler returns 0 on a
successful run, and a create with neither `--value` nor piped stdin exits
with 2. -/
theorem C1_exit_code_mapping_witness :
    handle_get_errcode "boom" = 5 ∧
    handle_create_errcode "boom" = 5 ∧
    handle_update_errcode "boom" = 5 ∧
    handle_delete_errcode "boom" = 5 ∧
    handle_list_errcode "boom" = 5 ∧
    handle_get
      { secret_id := some "aaaaaaaa-aaaa-aaaa-aaaa-aaaaaaaaaaaa",
        access_token := some "t" } {} loginOK listEmpty getStub = 0 ∧
    handle_create
      { key := some "k", value := some "v",
        org_id := some "bbbbbbbb-bbbb-bbbb-bbbb-bbbbbbbbbbbb",
        project_ids := some "cccccccc-cccc-cccc-cccc-cccccccccccc",
        access_token := some "t" } {} ⟨true, "", none⟩ loginOK listEmpty getStub
      createOK = 0 ∧
    handle_update
      { secret_id := some "aaaaaaaa-aaaa-aaaa-aaaa-aaaaaaaaaaaa",
        access_token := some "t",
        org_id := some "bbbbbbbb-bbbb-bbbb-bbbb-bbbbbbbbbbbb",
        value := some "nv" } {} ⟨false, "", none⟩ loginOK listEmpty getStub
      updateOK = 0 ∧
    handle_delete
      { secret_id := ["aaaaaaaa-aaaa-aaaa-aaaa-aaaaaaaaaaaa"],
        access_token := some "t", force := true } {} ⟨false, "", none⟩ loginOK
      listEmpty getStub deleteOK = 0 ∧
    handle_list
      { access_token := some "t",
        org_id := some "bbbbbbbb-bbbb-bbbb-bbbb-bbbbbbbbbbbb" } {} loginOK listEmpty
      getStub = 0 ∧
    handle_create
      { key := some "k",
        org_id := some "bbbbbbbb-bbbb-bbbb-bbbb-bbbbbbbbbbbb",
        project_ids := some "cccccccc-cccc-cccc-cccc-cccccccccccc",
        access_token := some "t" } {} ⟨true, "", none⟩ loginOK listEmpty getStub
      createOK = 2 := by
  obtain ⟨-, -, -, -, -, gu, cu, uu, du, lu, gs, cs, us, ds, ls, vr⟩ :=
    C1_exit_code_mapping
  exact ⟨gu "boom" (by decide) (by decide) (by decide) (by decide) (by decide)
      (by decide) (by decide) (by decide),
    cu "boom" (by decide) (by decide) (by decide) (by decide) (by decide)
      (by decide) (by decide),
    uu "boom" (by decide) (by decide) (by decide) (by decide) (by decide)
      (by decide) (by decide) (by decide),
    du "boom" (by decide) (by decide) (by decide) (by decide) (by decide)
      (by decide) (by decide) (by decide),
    lu "boom" (by decide) (by decide) (by decide) (by decide),
    gs _ {} loginOK listEmpty getStub "v" (by decide) (by decide) (by decide)
      (by decide),
    cs _ {} ⟨true, "", none⟩ loginOK listEmpty getStub createOK "v" "nid"
      (by decide) (by decide) (by decide) (by decide) (by decide) (by decide),
    us _ {} ⟨false, "", none⟩ loginOK listEmpty getStub updateOK "uid"
      (by decide) (by decide) (by decide) (by decide) (by decide) (by decide),
    ds _ {} ⟨false, "", none⟩ loginOK listEmpty getStub deleteOK
      ["aaaaaaaa-aaaa-aaaa-aaaa-aaaaaaaaaaaa"]
      ["aaaaaaaa-aaaa-aaaa-aaaa-aaaaaaaaaaaa"] (by decide) (by decide) (by decide)
      (by decide) (by decide) (by decide) (by decide) (by decide),
    ls _ {} loginOK listEmpty getStub [] (by decide) (by decide) (by decide),
    vr _ {} ⟨true, "", none⟩ loginOK listEmpty getStub createOK (by decide)
      (by decide) (by decide) (by decide) (by decide) (by decide)⟩

end Bwsm
